import Mathlib

set_option autoImplicit false

/-!
# Query construction of the member service (`pkg/member/model.go`)

A shallow embedding of the argument types of `model.go` and of the functions that
turn them into SQL text plus an ordered list of bound values.

* Go strings are Lean strings, `fmt.Sprintf` with `%s`/`%d` verbs is concatenation.
* `[]interface{}` is `List Value`.
* `uint8` / `uint16` fields are `Fin 256` / `Fin 65536`; arithmetic on them is written
  on `Nat` with an explicit `% 65536`.
* A Go map is the list of its entries in the order in which `range` visits them; a nil
  map is `none`.  Theorems quantify over every such list, hence over every visiting order.
-/

namespace Member

/-- A value handed to the driver for one placeholder (`interface{}` in the source). -/
inductive Value where
  | bool (b : Bool)
  | int (i : Int)
  | str (s : String)
  | ints (l : List Int)
  | time (t : Int)
  deriving DecidableEq, Repr

/-- Go's `strings.Join`. -/
def strings.Join : List String → String → String
  | [], _ => ""
  | [a], _ => a
  | a :: b :: rest, sep => a ++ sep ++ strings.Join (b :: rest) sep

deriving instance DecidableEq for Except

/-- The functions of package `rrsql` and of the driver that the builders call. Their
source is in `internal/rrsql` and in the library `sqlx`; the builders are stated for
every implementation of them. -/
structure Helpers where
  OperatorHelper : String → String
  OrderByHelper : String → String
  /-- The call `sqlx.In(query, args...)`: set-expansion, may fail. -/
  In : String → List Value → Except String (String × List Value)
  /-- The call `rrsql.DB.Rebind(query)`. -/
  Rebind : String → String
  /-- The call `fields.GetFields(template)` on a `rrsql.Sqlfields`. -/
  GetFields : List String → String → String
  /-- The value that an exact integer result takes in the integer type of the fields
  `Page` and `MaxResult` of `args.FilterArgs`, declared in `internal/args`. -/
  wrapInt : Int → Int

/-- The scan of `sqlx.In` over one statement: every `?` consumes one bound value, and a
value that is a list is replaced by one `?` per element and by its elements. -/
def expandIn : List Char → List Value → Except String (List Char × List Value)
  | [], [] => .ok ([], [])
  | [], _ :: _ => .error "number of bindVars less than number arguments"
  | c :: cs, vs =>
    if c = '?' then
      match vs with
      | [] => .error "number of bindVars exceeds arguments"
      | Value.ints l :: vs =>
        match expandIn cs vs with
        | .error e => .error e
        | .ok (q, a) =>
          .ok ((strings.Join (List.replicate l.length "?") ", ").data ++ q,
            l.map Value.int ++ a)
      | v :: vs =>
        match expandIn cs vs with
        | .error e => .error e
        | .ok (q, a) => .ok (c :: q, v :: a)
    else
      match expandIn cs vs with
      | .error e => .error e
      | .ok (q, a) => .ok (c :: q, a)

/-- Modelled from the spec: `rrsql.OperatorHelper`, `rrsql.OrderByHelper` and
`Sqlfields.GetFields`, whose source (`internal/rrsql`) is missing, with the set-expansion
helper and the placeholder rebind of the database handle (the rebind of the `?` dialect
changes nothing). As in the library `sqlx`, `In` rejects an empty list before it scans the
statement, and returns statement and values unchanged when no value is a list. The
operator keys `$in` and `$nin` map to `IN` and `NOT IN` (no other key is specified; it is mapped to the empty string here), a sort token `-field` maps to
`field DESC`, a token `field` to `field ASC`, the selected fields are listed separated by
commas, and the offset is the exact product. -/
def specHelpers : Helpers where
  GetFields := fun fields _ => strings.Join fields ", "
  wrapInt := fun i => i
  In := fun q vs =>
    if vs.any (fun v => v == Value.ints []) then .error "empty slice passed to \x27in\x27 query"
    else if vs.all (fun v => match v with | Value.ints _ => false | _ => true) then .ok (q, vs)
    else match expandIn q.data vs with
    | .error e => .error e
    | .ok (q, a) => .ok (String.mk q, a)
  Rebind := fun q => q
  OperatorHelper := fun k =>
    if k = "$in" then "IN" else if k = "$nin" then "NOT IN" else ""
  OrderByHelper := fun s =>
    match s.data with
    | '-' :: rest => String.mk rest ++ " DESC"
    | _ => s ++ " ASC"

/-- Number of `?` placeholders in a piece of SQL text. -/
def placeholders (s : String) : Nat := s.data.count '?'

/-- Whether `pat` occurs in `s` as a contiguous piece of text (Go's `strings.Contains`). -/
def strings.Contains (s pat : String) : Bool :=
  s.data.tails.any fun t => pat.data.isPrefixOf t

/-! ## `GetMembersArgs` -/

/-- The struct `GetMembersArgs` (model.go, lines 146-156). -/
structure GetMembersArgs where
  MaxResult : Fin 256 := 0
  Page : Fin 65536 := 0
  Sorting : String := ""
  CustomEditor : Bool := false
  Role : Option Int := none
  Active : Option (List (String × List Int)) := none
  IDs : List String := []
  UUIDs : List String := []
  Total : Bool := false
  deriving DecidableEq, Repr

/-- The expression `(m.Page-1)*uint16(m.MaxResult)` in `uint16` arithmetic. -/
def GetMembersArgs.offset (m : GetMembersArgs) : Nat :=
  (((m.Page.val + 65536 - 1) % 65536) * (m.MaxResult.val % 65536)) % 65536

/-- The method `GetMembersArgs.parseLimit` (model.go, lines 228-243). -/
def GetMembersArgs.parseLimit (h : Helpers) (m : GetMembersArgs) : String × List Value :=
  let restricts := ""
  let values : List Value := []
  let restricts :=
    if m.Sorting ≠ "" then restricts ++ " ORDER BY " ++ h.OrderByHelper m.Sorting else restricts
  if 0 < m.MaxResult.val then
    let restricts := restricts ++ " LIMIT ?"
    let values := values ++ [Value.int m.MaxResult.val]
    if 0 < m.Page.val then
      (restricts ++ " OFFSET ?", values ++ [Value.int m.offset])
    else
      (restricts, values)
  else
    (restricts, values)

/-- The clause list `where` and the value list built by the body of
`GetMembersArgs.parseRestricts` before the final join (model.go, lines 184-219). -/
def GetMembersArgs.restrictClauses (h : Helpers) (m : GetMembersArgs) :
    List String × List Value :=
  let wh : List String := []
  let values : List Value := []
  let (wh, values) :=
    if m.CustomEditor then
      (wh ++ ["custom_editor = ?"], values ++ [Value.bool m.CustomEditor])
    else (wh, values)
  let (wh, values) :=
    match m.Active with
    | some active =>
      active.foldl
        (fun (acc : List String × List Value) (kv : String × List Int) =>
          (acc.1 ++ ["members.active " ++ h.OperatorHelper kv.1 ++ " (?)"],
            acc.2 ++ [Value.ints kv.2]))
        (wh, values)
    | none => (wh, values)
  let (wh, values) :=
    match m.Role with
    | some role => (wh ++ ["role = ?"], values ++ [Value.int role])
    | none => (wh, values)
  let (wh, values) :=
    if 0 < m.IDs.length then
      let a := List.replicate m.IDs.length "?"
      (wh ++ ["members.id IN (" ++ strings.Join a ", " ++ ")"],
        m.IDs.foldl (fun vs id => vs ++ [Value.str id]) values)
    else (wh, values)
  let (wh, values) :=
    if 0 < m.UUIDs.length then
      let a := List.replicate m.UUIDs.length "?"
      (wh ++ ["members.uuid IN (" ++ strings.Join a ", " ++ ")"],
        m.UUIDs.foldl (fun vs id => vs ++ [Value.str id]) values)
    else (wh, values)
  (wh, values)

/-- The join that ends the three `parseRestricts` methods (model.go, lines 220-224):
`strings.Join` for more than one clause, the clause itself for one, `""` for none. -/
def joinRestricts (wh : List String) : String :=
  if 1 < wh.length then strings.Join wh " AND "
  else if wh.length = 1 then wh.headD ""
  else ""

/-- The method `GetMembersArgs.parseRestricts` (model.go, lines 183-226). -/
def GetMembersArgs.parseRestricts (h : Helpers) (m : GetMembersArgs) : String × List Value :=
  let (wh, values) := m.restrictClauses h
  (joinRestricts wh, values)

/-- The method `GetMembersArgs.anyFilter` (model.go, lines 179-181). -/
def GetMembersArgs.anyFilter (m : GetMembersArgs) : Bool :=
  m.Active.isSome || m.CustomEditor == true

/-- The method `GetMembersArgs.ParseCountQuery` (model.go, lines 169-177). -/
def GetMembersArgs.ParseCountQuery (h : Helpers) (m : GetMembersArgs) : String × List Value :=
  if !m.anyFilter then
    ("SELECT COUNT(*) FROM members", [])
  else
    let (restricts, values) := m.parseRestricts h
    ("SELECT COUNT(*) FROM (SELECT id FROM members WHERE " ++ restricts ++ ") AS subquery",
      values)

/-- The method `GetMembersArgs.SetDefault` (model.go, lines 158-162). -/
def GetMembersArgs.SetDefault (m : GetMembersArgs) : GetMembersArgs :=
  { m with MaxResult := 20, Page := 1, Sorting := "-updated_at" }

/-- The statement and the bound values that `memberAPI.GetMembers` hands to
`rrsql.DB.Select` (model.go, lines 384-393), or the error of `sqlx.In`. -/
def memberAPI.GetMembers.query (h : Helpers) (req : GetMembersArgs) :
    Except String (String × List Value) :=
  let (restricts, values) := req.parseRestricts h
  let query := "SELECT * FROM members where " ++ restricts ++ " "
  match h.In query values with
  | .error err => .error err
  | .ok (query, args) =>
    let query := h.Rebind query
    let query := query ++ ("ORDER BY " ++ h.OrderByHelper req.Sorting ++ " LIMIT ? OFFSET ?")
    let args := args ++ [Value.int req.MaxResult.val, Value.int req.offset]
    .ok (query, args)

/-! ## `GetMemberArgs` -/

/-- The struct `GetMemberArgs` (model.go, lines 119-123). -/
structure GetMemberArgs where
  IDType : String := ""
  ID : String := ""
  Mode : String := ""
  deriving DecidableEq, Repr

/-- The method `GetMemberArgs.parseRestricts` (model.go, lines 125-144). -/
def GetMemberArgs.parseRestricts (m : GetMemberArgs) : String × List Value :=
  let wh : List String := []
  let values : List Value := []
  let (wh, values) :=
    if m.ID ≠ "" ∧ m.IDType ≠ "" then
      (wh ++ [m.IDType ++ " = ?"], values ++ [Value.str m.ID])
    else (wh, values)
  let (wh, values) :=
    if m.Mode ≠ "" then
      (wh ++ ["register_mode = ?"], values ++ [Value.str m.Mode])
    else (wh, values)
  (joinRestricts wh, values)

/-! ## `FilterMemberArgs` -/

/-- The struct `FilterMemberArgs` (model.go, lines 245-248) with the fields of the embedded
`args.FilterArgs` that model.go reads. `args.FilterArgs` is declared in `internal/args`:
the integer fields are unbounded integers here, and the two date dictionaries are the
lists of their entries with distinct keys. -/
structure FilterMemberArgs where
  MaxResult : Int := 0
  Page : Int := 0
  Sorting : String := ""
  ID : Int := 0
  Mail : String := ""
  Nickname : String := ""
  CreatedAt : List (String × Value) := []
  UpdatedAt : List (String × Value) := []
  Fields : List String := []
  deriving DecidableEq, Repr

/-- The clause list `restricts` and the value list built by the body of
`FilterMemberArgs.parseFilterRestricts` before the final join (model.go, lines 283-316). -/
def FilterMemberArgs.filterClauses (m : FilterMemberArgs) : List String × List Value :=
  let restricts : List String := []
  let values : List Value := []
  let (restricts, values) :=
    if m.ID ≠ 0 then
      (restricts ++ ["CAST(members.id as CHAR) LIKE ?"],
        values ++ [Value.str ("%" ++ toString m.ID ++ "%")])
    else (restricts, values)
  let (restricts, values) :=
    if m.Mail ≠ "" then
      (restricts ++ ["CAST(members.mail as CHAR) LIKE ?"],
        values ++ [Value.str ("%" ++ m.Mail ++ "%")])
    else (restricts, values)
  let (restricts, values) :=
    if m.Nickname ≠ "" then
      (restricts ++ ["CAST(members.nickname as CHAR) LIKE ?"],
        values ++ [Value.str ("%" ++ m.Nickname ++ "%")])
    else (restricts, values)
  let (restricts, values) :=
    if m.CreatedAt.length ≠ 0 then
      let (restricts, values) :=
        match m.CreatedAt.lookup "$gt" with
        | some v => (restricts ++ ["members.created_at >= ?"], values ++ [v])
        | none => (restricts, values)
      match m.CreatedAt.lookup "$lt" with
      | some v => (restricts ++ ["members.created_at <= ?"], values ++ [v])
      | none => (restricts, values)
    else (restricts, values)
  let (restricts, values) :=
    if m.UpdatedAt.length ≠ 0 then
      let (restricts, values) :=
        match m.UpdatedAt.lookup "$gt" with
        | some v => (restricts ++ ["members.updated_at >= ?"], values ++ [v])
        | none => (restricts, values)
      match m.UpdatedAt.lookup "$lt" with
      | some v => (restricts ++ ["members.updated_at <= ?"], values ++ [v])
      | none => (restricts, values)
    else (restricts, values)
  (restricts, values)

/-- The method `FilterMemberArgs.parseFilterRestricts` (model.go, lines 282-323). -/
def FilterMemberArgs.parseFilterRestricts (m : FilterMemberArgs) : String × List Value :=
  let (restricts, values) := m.filterClauses
  let restrictString :=
    if 1 < restricts.length then "WHERE " ++ strings.Join restricts " AND "
    else if restricts.length = 1 then "WHERE " ++ restricts.headD ""
    else ""
  (restrictString, values)

/-- The method `FilterMemberArgs.parseLimit` (model.go, lines 325-340). -/
def FilterMemberArgs.parseLimit (h : Helpers) (m : FilterMemberArgs) : String × List Value :=
  let restricts := ""
  let values : List Value := []
  let restricts :=
    if m.Sorting ≠ "" then restricts ++ " ORDER BY " ++ h.OrderByHelper m.Sorting else restricts
  if 0 < m.MaxResult then
    let restricts := restricts ++ " LIMIT ?"
    let values := values ++ [Value.int m.MaxResult]
    if 0 < m.Page then
      (restricts ++ " OFFSET ?", values ++ [Value.int (h.wrapInt ((m.Page - 1) * m.MaxResult))])
    else
      (restricts, values)
  else
    (restricts, values)

/-- The method `FilterMemberArgs.parse` (model.go, lines 257-281). -/
def FilterMemberArgs.parse (h : Helpers) (m : FilterMemberArgs) (doCount : Bool) :
    String × List Value :=
  let selectedFields := h.GetFields m.Fields "%s \"%s\""
  let (restricts, restrictVals) := m.parseFilterRestricts
  let (limit, limitVals) := m.parseLimit h
  let values : List Value := []
  let values := values ++ restrictVals
  let values := values ++ limitVals
  if doCount then
    ("\n\t\tSELECT " ++ "COUNT(member_id)" ++ " FROM members " ++ restricts ++ " ", restrictVals)
  else
    ("\n\t\tSELECT " ++ selectedFields ++ " FROM members " ++ (restricts ++ limit) ++ " ", values)

/-- The method `FilterMemberArgs.ParseQuery` (model.go, lines 250-252). -/
def FilterMemberArgs.ParseQuery (h : Helpers) (p : FilterMemberArgs) : String × List Value :=
  p.parse h false

/-- The method `FilterMemberArgs.ParseCountQuery` (model.go, lines 253-255). -/
def FilterMemberArgs.ParseCountQuery (h : Helpers) (p : FilterMemberArgs) :
    String × List Value :=
  p.parse h true

/-! ## `GetMembersKeywordsArgs` -/

/-- The struct `GetMembersKeywordsArgs` (model.go, lines 342-346). -/
structure GetMembersKeywordsArgs where
  Keywords : String := ""
  Roles : Option (List (String × List Int)) := none
  Fields : List String := []
  deriving DecidableEq, Repr

/-- The `db` tags of the struct `Stunt` in declaration order (model.go, lines 62-100): the
value of `rrsql.GetStructDBTags("full", Stunt{})`. -/
def Stunt.dbTags : List String :=
  ["id", "member_id", "uuid", "points", "name", "nickname",
   "birthday", "gender", "work", "mail", "phone",
   "register_mode", "social_id", "talk_id",
   "created_at", "updated_at", "updated_by", "password", "salt",
   "description", "profile_image", "identity",
   "role", "active",
   "custom_editor", "hide_profile", "profile_push", "post_push", "daily_push", "comment_push"]

/-- The closure `containfield` of `Validate` (model.go, lines 365-372), also the inner loop
of the field check (lines 358-362): whether `field` occurs in `fields`. -/
def containfield (fields : List String) (field : String) : Bool :=
  match fields with
  | [] => false
  | f :: fs => if f = field then true else containfield fs field

/-- The loop `CheckEachFieldLoop` of `Validate` (model.go, lines 356-364): the field on
which the loop returns its error, if any. -/
def checkEachField (validFields : List String) : List String → Option String
  | [] => none
  | f :: fs => if containfield validFields f then checkEachField validFields fs else some f

/-- The method `GetMembersKeywordsArgs.Validate` (model.go, lines 348-380): the error, or
the receiver after the call. `validFields` is `rrsql.GetStructDBTags("full", Stunt{})`. -/
def GetMembersKeywordsArgs.Validate (validFields : List String) (a : GetMembersKeywordsArgs) :
    Except String GetMembersKeywordsArgs :=
  if a.Keywords = "" then .error "Invalid keyword"
  else
    match checkEachField validFields a.Fields with
    | some f => .error ("Invalid fields: " ++ f)
    | none =>
      .ok (["id", "nickname"].foldl
        (fun (a : GetMembersKeywordsArgs) fs =>
          if !containfield a.Fields fs then { a with Fields := a.Fields ++ [fs] } else a)
        a)

/-! ## The clauses of `GetMembersArgs.parseRestricts`, field by field -/

/-- The clause contributed by `CustomEditor`. -/
def GetMembersArgs.customEditorClause (m : GetMembersArgs) : List String :=
  if m.CustomEditor then ["custom_editor = ?"] else []

/-- The clauses contributed by `Active`, one per operator key. -/
def GetMembersArgs.activeClauses (h : Helpers) (m : GetMembersArgs) : List String :=
  match m.Active with
  | some active => active.map fun kv => "members.active " ++ h.OperatorHelper kv.1 ++ " (?)"
  | none => []

/-- The clause contributed by `Role`. -/
def GetMembersArgs.roleClause (m : GetMembersArgs) : List String :=
  match m.Role with
  | some _ => ["role = ?"]
  | none => []

/-- The clause contributed by `IDs`. -/
def GetMembersArgs.idsClause (m : GetMembersArgs) : List String :=
  if 0 < m.IDs.length then
    ["members.id IN (" ++ strings.Join (List.replicate m.IDs.length "?") ", " ++ ")"]
  else []

/-- The clause contributed by `UUIDs`. -/
def GetMembersArgs.uuidsClause (m : GetMembersArgs) : List String :=
  if 0 < m.UUIDs.length then
    ["members.uuid IN (" ++ strings.Join (List.replicate m.UUIDs.length "?") ", " ++ ")"]
  else []

/-- The values bound by `Active`, one list per operator key. -/
def GetMembersArgs.activeValues (m : GetMembersArgs) : List Value :=
  match m.Active with
  | some active => active.map fun kv => Value.ints kv.2
  | none => []

/-- Number of operator keys of the `Active` dictionary. -/
def GetMembersArgs.activeKeys (m : GetMembersArgs) : Nat :=
  match m.Active with
  | some active => active.length
  | none => 0

/-- An equality clause of the list predicate. -/
def isEqualityClause (c : String) : Bool :=
  c == "custom_editor = ?" || c == "role = ?"

/-- A set-membership clause of the list predicate. -/
def isMembershipClause (c : String) : Bool :=
  "members.active ".data.isPrefixOf c.data || "members.id IN".data.isPrefixOf c.data
    || "members.uuid IN".data.isPrefixOf c.data

/-- No set-membership clause stands before an equality clause. -/
def equalityFirst : List String → Bool
  | [] => true
  | c :: cs => (!isMembershipClause c || cs.all fun d => !isEqualityClause d) && equalityFirst cs

/-! ## The clauses of `FilterMemberArgs.parseFilterRestricts`, field by field -/

/-- The clauses and values contributed by the three text filters `ID`, `Mail`, `Nickname`:
for each filter that is set, `CAST(members.<col> as CHAR) LIKE ?` bound to the raw value
between two `%`. -/
def FilterMemberArgs.textClauses (m : FilterMemberArgs) : List String × List Value :=
  ((if m.ID ≠ 0 then ["CAST(members.id as CHAR) LIKE ?"] else [])
      ++ (if m.Mail ≠ "" then ["CAST(members.mail as CHAR) LIKE ?"] else [])
      ++ (if m.Nickname ≠ "" then ["CAST(members.nickname as CHAR) LIKE ?"] else []),
    (if m.ID ≠ 0 then [Value.str (String.mk ('%' :: (toString m.ID).data ++ ['%']))] else [])
      ++ (if m.Mail ≠ "" then [Value.str (String.mk ('%' :: m.Mail.data ++ ['%']))] else [])
      ++ (if m.Nickname ≠ "" then [Value.str (String.mk ('%' :: m.Nickname.data ++ ['%']))]
          else []))

/-- The clauses and values contributed by one date dictionary: the lower bound `$gt`
first, then the upper bound `$lt`. -/
def rangeClauses (field : String) (d : List (String × Value)) : List String × List Value :=
  ((match d.lookup "$gt" with | some _ => ["members." ++ field ++ " >= ?"] | none => [])
      ++ (match d.lookup "$lt" with | some _ => ["members." ++ field ++ " <= ?"] | none => []),
    (match d.lookup "$gt" with | some v => [v] | none => [])
      ++ (match d.lookup "$lt" with | some v => [v] | none => []))

/-- The clause list of a filter whose seven possible clauses are present or absent. -/
def clausesOfFlags (i ml n cg cl ug ul : Bool) : List String :=
  (if i then ["CAST(members.id as CHAR) LIKE ?"] else [])
    ++ (if ml then ["CAST(members.mail as CHAR) LIKE ?"] else [])
    ++ (if n then ["CAST(members.nickname as CHAR) LIKE ?"] else [])
    ++ (if cg then ["members.created_at >= ?"] else [])
    ++ (if cl then ["members.created_at <= ?"] else [])
    ++ (if ug then ["members.updated_at >= ?"] else [])
    ++ (if ul then ["members.updated_at <= ?"] else [])

/-- The count statement built over a clause list (model.go, lines 266-270 and 317-321). -/
def countStatement (restricts : List String) : String :=
  "\n\t\tSELECT " ++ "COUNT(member_id)" ++ " FROM members "
    ++ (if 1 < restricts.length then "WHERE " ++ strings.Join restricts " AND "
        else if restricts.length = 1 then "WHERE " ++ restricts.headD ""
        else "")
    ++ " "

/-- A filter request with every text filter set, wildcard characters in the mail filter,
a negative id, one date bound and pagination. -/
def wildcardFilter : FilterMemberArgs :=
  { ID := -5, Mail := "a%b_c", Nickname := "readr", CreatedAt := [("$lt", Value.time 3)],
    MaxResult := 10, Page := 3, Sorting := "-updated_at", Fields := ["id", "mail"] }

/-! ## Concrete requests -/

/-- The request of the test `MoreThanOneActive`: `active={"$nin":[1,0], "$in":[-1,3]}`
after `SetDefault`. -/
def moreThanOneActive : GetMembersArgs :=
  { MaxResult := 20, Page := 1, Sorting := "-updated_at",
    Active := some [("$nin", [1, 0]), ("$in", [-1, 3])] }

/-- A request with an active filter and a role filter. -/
def activeAndRole : GetMembersArgs :=
  { MaxResult := 20, Page := 1, Sorting := "-updated_at",
    Active := some [("$in", [1])], Role := some 3 }

/-- A request for page 259 of pages of 255 members. -/
def deepPage : GetMembersArgs :=
  { MaxResult := 255, Page := 259, Sorting := "-updated_at", Active := some [("$nin", [-1])] }

/-- A request of the count route with a role filter only, as in `/members/count?role=9`. -/
def roleOnly : GetMembersArgs := { Role := some 9 }

/-- A list request with page size zero. -/
def unboundedPage : GetMembersArgs :=
  { MaxResult := 0, Page := 3, Sorting := "-updated_at", Active := some [("$nin", [-1])] }

/-- A keyword request with a known field, an unknown field and another unknown field. -/
def unknownFieldRequest : GetMembersKeywordsArgs :=
  { Keywords := "readr", Fields := ["mail", "line", "colour"] }

/-- A keyword request that asks for `nickname` and `mail` only. -/
def nicknameMailRequest : GetMembersKeywordsArgs :=
  { Keywords := "readr", Fields := ["nickname", "mail"] }

/-! ## The repository operations -/

/-- A Go `error` value that is not nil: `sql.ErrNoRows`, or any other error, known by its
message (`errors.New(msg)` and the errors of the driver). -/
inductive Error where
  | ErrNoRows
  | New (msg : String)
  deriving DecidableEq, Repr

/-- The method `Error()` of an error: its message. -/
def Error.Error : Error → String
  | .ErrNoRows => "sql: no rows in result set"
  | .New msg => msg

/-- How a call ends: it returns to its caller, or `log.Fatal` ends the process. -/
inductive Outcome (α : Type) where
  | returned (a : α)
  | fatal (err : Error)
  deriving DecidableEq, Repr

/-- A `sql.Result`: what `RowsAffected()` and `LastInsertId()` return, each a number and
an error that may be nil. -/
structure Result where
  RowsAffected : Int × Option Error
  LastInsertId : Int × Option Error
  deriving DecidableEq, Repr

/-- The struct `Member` (model.go, lines 18-57), with the fields that model.go reads by
name. The remaining fields are nullable columns of types of package `rrsql`, which only
travel to the driver through `NamedExec` and back through `StructScan`. -/
structure Member where
  ID : Int := 0
  MemberID : String := ""
  UUID : String := ""
  deriving DecidableEq, Repr

/-- The database handle `rrsql.DB`, the reflection helpers of `rrsql` and the status codes
of the configuration, as the repository operations use them. Each call of the handle
answers with its error or with its result. -/
structure Driver where
  /-- The call `rrsql.GetStructDBTags(mode, m)`. -/
  GetStructDBTags : String → Member → List String
  /-- The call `rrsql.MakeFieldString(mode, pattern, tags)`. -/
  MakeFieldString : String → String → List String → List String
  /-- The lookup `config.Config.Models.Members[key]`. -/
  Members : String → Int
  /-- The call `rrsql.DB.Get(&dest, query, args...)` for an integer destination. -/
  Get : String → List Value → Except Error Int
  /-- The call `rrsql.DB.NamedExec(query, m)`. -/
  NamedExec : String → Member → Except Error Result
  /-- The call `rrsql.DB.Exec(query, args...)`. -/
  Exec : String → List Value → Except Error Result
  /-- The call `rrsql.DB.QueryRowx(query, args...).StructScan(&member)`. -/
  QueryRowx : String → List Value → Except Error Member

/-- The result of a call together with the statements it sent to the database, in order. -/
structure Run (α : Type) where
  outcome : Outcome α
  issued : List String
  deriving DecidableEq, Repr

/-- The method `memberAPI.GetMember` (model.go, lines 404-421). -/
def memberAPI.GetMember (d : Driver) (req : GetMemberArgs) : Outcome (Member × Option Error) :=
  let (restricts, values) := req.parseRestricts
  let query := "SELECT * FROM members where " ++ restricts
  match d.QueryRowx query values with
  | .error err =>
    if err = Error.ErrNoRows then .returned ({}, some (Error.New "User Not Found"))
    else .fatal err
  | .ok member => .returned (member, none)

/-- The method `memberAPI.InsertMember` (model.go, lines 440-477), with the statements it
sends. -/
def memberAPI.InsertMember (d : Driver) (m : Member) : Run (Int × Option Error) :=
  let check := "SELECT id FROM members WHERE id=? OR member_id=? LIMIT 1;"
  let got := d.Get check [Value.int m.ID, Value.str m.MemberID]
  let existedID : Int := match got with | .ok id => id | .error _ => 0
  let failed : Option Error :=
    match got with
    | .error err => if err ≠ Error.ErrNoRows then some err else none
    | .ok _ => none
  match failed with
  | some err => ⟨.returned (0, some err), [check]⟩
  | none =>
    if existedID ≠ 0 then ⟨.returned (0, some (Error.New "Duplicate entry")), [check]⟩
    else
      let tags := d.GetStructDBTags "partial" m
      let query := "INSERT INTO members (" ++ strings.Join tags "," ++ ") VALUES (:"
        ++ strings.Join tags ",:" ++ ")"
      match d.NamedExec query m with
      | .error err =>
        if strings.Contains err.Error "Duplicate entry" then
          ⟨.returned (0, some (Error.New "Duplicate entry")), [check, query]⟩
        else ⟨.returned (0, some err), [check, query]⟩
      | .ok result =>
        match result.RowsAffected with
        | (_, some err) => ⟨.fatal err, [check, query]⟩
        | (rowCnt, none) =>
          if rowCnt > 1 then
            ⟨.returned (0, some (Error.New "More Than One Rows Affected")), [check, query]⟩
          else if rowCnt = 0 then
            ⟨.returned (0, some (Error.New "No Row Inserted")), [check, query]⟩
          else
            match result.LastInsertId with
            | (_, some err) => ⟨.returned (0, some err), [check, query]⟩
            | (lastID, none) => ⟨.returned (lastID, none), [check, query]⟩

/-- The method `memberAPI.UpdateMember` (model.go, lines 479-497). -/
def memberAPI.UpdateMember (d : Driver) (m : Member) : Outcome (Option Error) :=
  let tags := d.GetStructDBTags "partial" m
  let fields := d.MakeFieldString "update" "%s = :%s" tags
  let query := "UPDATE members SET " ++ strings.Join fields ", " ++ " WHERE id = :id"
  match d.NamedExec query m with
  | .error err => .fatal err
  | .ok result =>
    let (rowCnt, _) := result.RowsAffected
    if rowCnt > 1 then .returned (some (Error.New "More Than One Rows Affected"))
    else if rowCnt = 0 then .returned (some (Error.New "User Not Found"))
    else .returned none

/-- The method `memberAPI.DeleteMember` (model.go, lines 499-513). -/
def memberAPI.DeleteMember (d : Driver) (idType id : String) : Outcome (Option Error) :=
  let query := "UPDATE members SET active = " ++ toString (d.Members "delete") ++ " WHERE "
    ++ idType ++ " = ?"
  match d.Exec query [Value.str id] with
  | .error err => .returned (some err)
  | .ok result =>
    let (rowCnt, err) := result.RowsAffected
    if rowCnt > 1 then .returned (some (Error.New "More Than One Rows Affected"))
    else if rowCnt = 0 then .returned (some (Error.New "User Not Found"))
    else .returned err

/-- The method `memberAPI.UpdateAll` (model.go, lines 515-533). -/
def memberAPI.UpdateAll (h : Helpers) (d : Driver) (ids : List Int) (active : Int) :
    Outcome (Option Error) :=
  let prep := "UPDATE members SET active = " ++ toString active ++ " WHERE id IN (?);"
  match h.In prep [Value.ints ids] with
  | .error err => .returned (some (Error.New err))
  | .ok (query, args) =>
    let query := h.Rebind query
    match d.Exec query args with
    | .error err => .returned (some err)
    | .ok result =>
      let (rowCnt, err) := result.RowsAffected
      if rowCnt > (ids.length : Int) then .returned (some (Error.New "More Rows Affected"))
      else if rowCnt = 0 then .returned (some (Error.New "Members Not Found"))
      else .returned err

/-- A driver over a table of members: the duplicate check of `InsertMember` answers with
the id of the first row whose id or member id matches, every write answers with `exec` and
every row query with `row`. The tags, the field pattern and the status codes are examples
of what the absent helpers and the configuration supply. -/
def tableDriver (rows : List Member) (exec : Except Error Result) (row : Except Error Member) :
    Driver where
  GetStructDBTags := fun _ _ => ["member_id"]
  MakeFieldString := fun _ _ tags => tags.map fun t => t ++ " = :" ++ t
  Members := fun k => if k = "delete" then -1 else if k = "active" then 1 else 0
  Get := fun _ args =>
    match args with
    | [Value.int id, Value.str mid] =>
      match rows.find? fun r => r.ID == id || r.MemberID == mid with
      | some r => .ok r.ID
      | none => .error Error.ErrNoRows
    | _ => .error (Error.New "sql: wrong arguments")
  NamedExec := fun _ _ => exec
  Exec := fun _ _ => exec
  QueryRowx := fun _ _ => row

/-- A write that reports `n` affected rows. -/
def affected (n : Int) : Except Error Result :=
  .ok { RowsAffected := (n, none), LastInsertId := (0, none) }

/-- A count request whose `Active` dictionary is present and has no key, as bound from
`active={}`. -/
def emptyActive : GetMembersArgs := { Active := some [] }

/-- A lookup by numeric id with a registration mode. -/
def lookupByIdAndMode : GetMemberArgs := { IDType := "id", ID := "1", Mode := "ordinary" }

/-- A list request for three ids and two uuids. -/
def idsAndUuids : GetMembersArgs :=
  { IDs := ["1", "2", "3"], UUIDs := ["3d64e480", "3d651126"] }

/-- A filter request with both bounds on the creation date and a lower bound on the update
date. -/
def datedFilter : FilterMemberArgs :=
  { CreatedAt := [("$lt", Value.time 9), ("$gt", Value.time 3)],
    UpdatedAt := [("$gt", Value.time 5)] }

/-- A member whose external identifier is already stored under the numeric id 1. -/
def superman : Member := { ID := 0, MemberID := "superman@mirrormedia.mg" }

/-! ## Clauses paired with their values -/

/-- The `WHERE` text over a clause list: nothing for no clause, otherwise the clauses
joined by ` AND ` after `WHERE `. -/
def whereText (clauses : List String) : String :=
  if clauses = [] then "" else "WHERE " ++ strings.Join clauses " AND "

/-- The clauses of the text filters `ID`, `Mail`, `Nickname`, each with the value bound to
its placeholder. -/
def FilterMemberArgs.textPairs (m : FilterMemberArgs) : List (String × Value) :=
  (if m.ID ≠ 0 then
      [("CAST(members.id as CHAR) LIKE ?",
        Value.str (String.mk ('%' :: (toString m.ID).data ++ ['%'])))]
    else [])
    ++ (if m.Mail ≠ "" then
        [("CAST(members.mail as CHAR) LIKE ?", Value.str (String.mk ('%' :: m.Mail.data ++ ['%'])))]
      else [])
    ++ (if m.Nickname ≠ "" then
        [("CAST(members.nickname as CHAR) LIKE ?",
          Value.str (String.mk ('%' :: m.Nickname.data ++ ['%'])))]
      else [])

/-- The clauses of the date filters `CreatedAt`, `UpdatedAt`, each with the value bound to
its placeholder: per field the lower bound `$gt`, then the upper bound `$lt`. -/
def FilterMemberArgs.datePairs (m : FilterMemberArgs) : List (String × Value) :=
  ((m.CreatedAt.lookup "$gt").map fun v => ("members.created_at >= ?", v)).toList
    ++ ((m.CreatedAt.lookup "$lt").map fun v => ("members.created_at <= ?", v)).toList
    ++ ((m.UpdatedAt.lookup "$gt").map fun v => ("members.updated_at >= ?", v)).toList
    ++ ((m.UpdatedAt.lookup "$lt").map fun v => ("members.updated_at <= ?", v)).toList

/-- A piece of statement text with the values bound to the placeholders it holds. -/
abbrev Fragment := String × List Value

/-- The text and the values of a list of fragments, each concatenated in order. -/
def concatFragments (fr : List Fragment) : String × List Value :=
  (fr.foldr (fun f acc => f.1 ++ acc) "", fr.foldr (fun f acc => f.2 ++ acc) [])

/-- The fragments of a `WHERE` text: the first clause after `WHERE `, every later clause
after ` AND `, each with its one value. -/
def whereFragments : List (String × Value) → List Fragment
  | [] => []
  | p :: rest => ("WHERE " ++ p.1, [p.2]) :: rest.map fun q => (" AND " ++ q.1, [q.2])

/-- The fragments of the pagination text: the sort expression with no value, ` LIMIT ?`
with the page size, ` OFFSET ?` with the offset. -/
def FilterMemberArgs.limitFragments (h : Helpers) (m : FilterMemberArgs) : List Fragment :=
  (if m.Sorting ≠ "" then [(" ORDER BY " ++ h.OrderByHelper m.Sorting, [])] else [])
    ++ (if 0 < m.MaxResult then
        (" LIMIT ?", [Value.int m.MaxResult])
          :: (if 0 < m.Page then
              [(" OFFSET ?", [Value.int (h.wrapInt ((m.Page - 1) * m.MaxResult))])]
            else [])
      else [])

/-- A driver whose `NamedExec` answers with `named` and whose `Exec` answers with `exec`. -/
def writeDriver (named exec : Except Error Result) : Driver :=
  { tableDriver [] exec (.ok {}) with NamedExec := fun _ _ => named }

/-! ## Lemmas on the building blocks -/

theorem foldl_pair_append {α : Type} (f : α → String) (g : α → Value) (l : List α)
    (w : List String) (v : List Value) :
    l.foldl (fun (acc : List String × List Value) (kv : α) =>
        (acc.1 ++ [f kv], acc.2 ++ [g kv])) (w, v)
      = (w ++ l.map f, v ++ l.map g) := by
  induction l generalizing w v with
  | nil => simp
  | cons a l ih => simp [List.foldl_cons, ih]

theorem foldl_snoc_map {α : Type} (g : α → Value) (l : List α) (v : List Value) :
    l.foldl (fun vs x => vs ++ [g x]) v = v ++ l.map g := by
  induction l generalizing v with
  | nil => simp
  | cons a l ih => simp [List.foldl_cons, ih]

theorem joinRestricts_eq_Join (wh : List String) :
    joinRestricts wh = strings.Join wh " AND " := by
  match wh with
  | [] => simp [joinRestricts, strings.Join]
  | [a] => simp [joinRestricts, strings.Join]
  | a :: b :: rest => simp [joinRestricts]

/-- The clause list and the value list of `parseRestricts` in closed form. -/
theorem restrictClauses_eq (h : Helpers) (m : GetMembersArgs) :
    m.restrictClauses h =
      (m.customEditorClause ++ m.activeClauses h ++ m.roleClause ++ m.idsClause ++ m.uuidsClause,
        (if m.CustomEditor then [Value.bool true] else []) ++ m.activeValues
          ++ (match m.Role with | some r => [Value.int r] | none => [])
          ++ m.IDs.map Value.str ++ m.UUIDs.map Value.str) := by
  obtain ⟨mr, pg, so, ce, role, active, ids, uuids, total⟩ := m
  simp only [GetMembersArgs.restrictClauses, GetMembersArgs.customEditorClause,
    GetMembersArgs.activeClauses, GetMembersArgs.roleClause, GetMembersArgs.idsClause,
    GetMembersArgs.uuidsClause, GetMembersArgs.activeValues, foldl_pair_append, foldl_snoc_map]
  cases ce <;> cases role <;> cases active <;> cases ids <;> cases uuids <;> simp

theorem parseRestricts_eq (h : Helpers) (m : GetMembersArgs) :
    m.parseRestricts h =
      (strings.Join (m.customEditorClause ++ m.activeClauses h ++ m.roleClause ++ m.idsClause
          ++ m.uuidsClause) " AND ",
        (if m.CustomEditor then [Value.bool true] else []) ++ m.activeValues
          ++ (match m.Role with | some r => [Value.int r] | none => [])
          ++ m.IDs.map Value.str ++ m.UUIDs.map Value.str) := by
  simp only [GetMembersArgs.parseRestricts, restrictClauses_eq, joinRestricts_eq_Join]

/-- Without overflow the `uint16` offset is the exact product. -/
theorem offset_eq_of_lt (m : GetMembersArgs) (hp : 1 ≤ m.Page.val)
    (hlt : (m.Page.val - 1) * m.MaxResult.val < 65536) :
    m.offset = (m.Page.val - 1) * m.MaxResult.val := by
  have h1 : m.Page.val < 65536 := m.Page.isLt
  have h2 : m.MaxResult.val < 256 := m.MaxResult.isLt
  have h3 : (m.Page.val + 65536 - 1) % 65536 = m.Page.val - 1 := by omega
  have h4 : m.MaxResult.val % 65536 = m.MaxResult.val := by omega
  unfold GetMembersArgs.offset
  rw [h3, h4]
  exact Nat.mod_eq_of_lt hlt

theorem containfield_iff (fields : List String) (field : String) :
    containfield fields field = true ↔ field ∈ fields := by
  induction fields with
  | nil => simp [containfield]
  | cons f fs ih =>
    unfold containfield
    by_cases hf : f = field
    · simp [hf]
    · have hf2 : ¬ field = f := fun e => hf e.symm
      simp [hf, hf2, ih]

theorem checkEachField_eq_none_iff (vf fs : List String) :
    checkEachField vf fs = none ↔ ∀ f ∈ fs, f ∈ vf := by
  induction fs with
  | nil => simp [checkEachField]
  | cons f fs ih =>
    unfold checkEachField
    by_cases hf : f ∈ vf
    · simp [(containfield_iff vf f).2 hf, ih, hf]
    · have hc : containfield vf f = false := by
        cases hcf : containfield vf f with
        | false => rfl
        | true => exact absurd ((containfield_iff vf f).1 hcf) hf
      simp [hc, hf]

theorem checkEachField_first (vf pre post : List String) (f : String)
    (hpre : ∀ g ∈ pre, g ∈ vf) (hf : f ∉ vf) :
    checkEachField vf (pre ++ f :: post) = some f := by
  induction pre with
  | nil =>
    have hc : containfield vf f = false := by
      cases hcf : containfield vf f with
      | false => rfl
      | true => exact absurd ((containfield_iff vf f).1 hcf) hf
    simp [checkEachField, hc]
  | cons g pre ih =>
    have hg : containfield vf g = true := (containfield_iff vf g).2 (hpre g (by simp))
    have := ih (fun x hx => hpre x (by simp [hx]))
    simp [checkEachField, hg, this]

theorem checkEachField_some_split (vf fs : List String) (f : String)
    (hsome : checkEachField vf fs = some f) :
    ∃ pre post, fs = pre ++ f :: post ∧ (∀ g ∈ pre, g ∈ vf) ∧ f ∉ vf := by
  induction fs with
  | nil => simp [checkEachField] at hsome
  | cons g fs ih =>
    unfold checkEachField at hsome
    by_cases hg : containfield vf g = true
    · rw [if_pos hg] at hsome
      obtain ⟨pre, post, e, hpre, hf⟩ := ih hsome
      refine ⟨g :: pre, post, by simp [e], ?_, hf⟩
      intro x hx
      rcases List.mem_cons.1 hx with rfl | hx
      · exact (containfield_iff vf x).1 hg
      · exact hpre x hx
    · rw [if_neg hg] at hsome
      have e : g = f := by simpa using hsome
      subst e
      exact ⟨[], fs, by simp, by simp, fun hm => hg ((containfield_iff vf g).2 hm)⟩

/-- The fields after a successful `Validate`, in closed form. -/
theorem Validate_ok_fields (vf : List String) (a a' : GetMembersKeywordsArgs)
    (hok : a.Validate vf = .ok a') :
    a' = { a with Fields := a.Fields ++ (if "id" ∈ a.Fields then [] else ["id"])
            ++ (if "nickname" ∈ a.Fields then [] else ["nickname"]) } := by
  unfold GetMembersKeywordsArgs.Validate at hok
  split at hok
  · cases hok
  · split at hok
    · cases hok
    · injection hok with hok
      subst hok
      have hn : ("nickname" : String) ≠ "id" := by decide
      by_cases h1 : "id" ∈ a.Fields <;> by_cases h2 : "nickname" ∈ a.Fields
      · simp [List.foldl, (containfield_iff _ _).2 h1, (containfield_iff _ _).2 h2, h1, h2]
      · have c2 : containfield a.Fields "nickname" = false := by
          cases hc : containfield a.Fields "nickname" with
          | false => rfl
          | true => exact absurd ((containfield_iff _ _).1 hc) h2
        simp [List.foldl, (containfield_iff _ _).2 h1, c2, h1, h2]
      · have c1 : containfield a.Fields "id" = false := by
          cases hc : containfield a.Fields "id" with
          | false => rfl
          | true => exact absurd ((containfield_iff _ _).1 hc) h1
        have c2 : containfield (a.Fields ++ ["id"]) "nickname" = true :=
          (containfield_iff _ _).2 (by simp [h2])
        simp [List.foldl, c1, c2, h1, h2]
      · have c1 : containfield a.Fields "id" = false := by
          cases hc : containfield a.Fields "id" with
          | false => rfl
          | true => exact absurd ((containfield_iff _ _).1 hc) h1
        have c2 : containfield (a.Fields ++ ["id"]) "nickname" = false := by
          cases hc : containfield (a.Fields ++ ["id"]) "nickname" with
          | false => rfl
          | true =>
            have := (containfield_iff _ _).1 hc
            simp [h2] at this
        simp [List.foldl, c1, c2, h1, h2]

theorem wrapPercent (x : String) : "%" ++ x ++ "%" = String.mk ('%' :: x.data ++ ['%']) := by
  apply String.ext
  simp [String.data_append]

theorem createdClause_ge : "members." ++ "created_at" ++ " >= ?" = "members.created_at >= ?" := by
  decide

theorem createdClause_le : "members." ++ "created_at" ++ " <= ?" = "members.created_at <= ?" := by
  decide

theorem updatedClause_ge : "members." ++ "updated_at" ++ " >= ?" = "members.updated_at >= ?" := by
  decide

theorem updatedClause_le : "members." ++ "updated_at" ++ " <= ?" = "members.updated_at <= ?" := by
  decide

/-- The clause list and the value list of `parseFilterRestricts` in closed form. -/
theorem filterClauses_eq (m : FilterMemberArgs) :
    m.filterClauses =
      (m.textClauses.1 ++ (rangeClauses "created_at" m.CreatedAt).1
          ++ (rangeClauses "updated_at" m.UpdatedAt).1,
        m.textClauses.2 ++ (rangeClauses "created_at" m.CreatedAt).2
          ++ (rangeClauses "updated_at" m.UpdatedAt).2) := by
  obtain ⟨mr, pg, so, id, mail, nick, ca, ua, fields⟩ := m
  simp only [FilterMemberArgs.filterClauses, FilterMemberArgs.textClauses, rangeClauses,
    wrapPercent, createdClause_ge, createdClause_le, updatedClause_ge, updatedClause_le]
  by_cases hca : ca.length ≠ 0 <;> by_cases hua : ua.length ≠ 0
  · generalize List.lookup "$gt" ca = g1
    generalize List.lookup "$lt" ca = l1
    generalize List.lookup "$gt" ua = g2
    generalize List.lookup "$lt" ua = l2
    by_cases h1 : id ≠ 0 <;> by_cases h2 : mail ≠ "" <;> by_cases h3 : nick ≠ "" <;>
      cases g1 <;> cases l1 <;> cases g2 <;> cases l2 <;> simp [h1, h2, h3, hca, hua]
  · have e : ua = [] := by
      cases ua with
      | nil => rfl
      | cons a l => simp at hua
    subst e
    generalize List.lookup "$gt" ca = g1
    generalize List.lookup "$lt" ca = l1
    by_cases h1 : id ≠ 0 <;> by_cases h2 : mail ≠ "" <;> by_cases h3 : nick ≠ "" <;>
      cases g1 <;> cases l1 <;> simp [h1, h2, h3, hca]
  · have e : ca = [] := by
      cases ca with
      | nil => rfl
      | cons a l => simp at hca
    subst e
    generalize List.lookup "$gt" ua = g2
    generalize List.lookup "$lt" ua = l2
    by_cases h1 : id ≠ 0 <;> by_cases h2 : mail ≠ "" <;> by_cases h3 : nick ≠ "" <;>
      cases g2 <;> cases l2 <;> simp [h1, h2, h3, hua]
  · have e : ca = [] := by
      cases ca with
      | nil => rfl
      | cons a l => simp at hca
    have e2 : ua = [] := by
      cases ua with
      | nil => rfl
      | cons a l => simp at hua
    subst e e2
    by_cases h1 : id ≠ 0 <;> by_cases h2 : mail ≠ "" <;> by_cases h3 : nick ≠ "" <;>
      simp [h1, h2, h3]

theorem placeholders_append (a b : String) :
    placeholders (a ++ b) = placeholders a + placeholders b := by
  simp [placeholders, String.data_append, List.count_append]

theorem placeholders_Join (l : List String) (h1 : ∀ c ∈ l, placeholders c = 1) :
    placeholders (strings.Join l " AND ") = l.length := by
  have hsep : placeholders " AND " = 0 := by decide
  induction l with
  | nil => simp [strings.Join, placeholders]
  | cons a l ih =>
    cases l with
    | nil => simpa [strings.Join] using h1 a (by simp)
    | cons b rest =>
      have ha := h1 a (by simp)
      have ih2 := ih (fun c hc => h1 c (by simp [hc]))
      simp only [strings.Join, placeholders_append, ha, hsep, List.length_cons] at ih2 ⊢
      omega

/-- The clause list of `parseFilterRestricts` depends on seven yes/no facts only. -/
theorem filterClauses_fst_flags (m : FilterMemberArgs) :
    m.filterClauses.1 =
      clausesOfFlags (decide (m.ID ≠ 0)) (decide (m.Mail ≠ "")) (decide (m.Nickname ≠ ""))
        (m.CreatedAt.lookup "$gt").isSome (m.CreatedAt.lookup "$lt").isSome
        (m.UpdatedAt.lookup "$gt").isSome (m.UpdatedAt.lookup "$lt").isSome := by
  rw [filterClauses_eq]
  simp only [FilterMemberArgs.textClauses, rangeClauses, clausesOfFlags,
    createdClause_ge, createdClause_le, updatedClause_ge, updatedClause_le]
  generalize List.lookup "$gt" m.CreatedAt = g1
  generalize List.lookup "$lt" m.CreatedAt = l1
  generalize List.lookup "$gt" m.UpdatedAt = g2
  generalize List.lookup "$lt" m.UpdatedAt = l2
  cases g1 <;> cases l1 <;> cases g2 <;> cases l2 <;> simp

theorem filterClauses_length (m : FilterMemberArgs) :
    m.filterClauses.1.length = m.filterClauses.2.length := by
  rw [filterClauses_eq]
  simp only [FilterMemberArgs.textClauses, rangeClauses]
  generalize List.lookup "$gt" m.CreatedAt = g1
  generalize List.lookup "$lt" m.CreatedAt = l1
  generalize List.lookup "$gt" m.UpdatedAt = g2
  generalize List.lookup "$lt" m.UpdatedAt = l2
  by_cases h1 : m.ID ≠ 0 <;> by_cases h2 : m.Mail ≠ "" <;> by_cases h3 : m.Nickname ≠ "" <;>
    cases g1 <;> cases l1 <;> cases g2 <;> cases l2 <;> simp [h1, h2, h3]

theorem clausesOfFlags_one_placeholder :
    ∀ i ml n cg cl ug ul : Bool, ∀ c ∈ clausesOfFlags i ml n cg cl ug ul, placeholders c = 1 := by
  decide

theorem filterClauses_one_placeholder (m : FilterMemberArgs) :
    ∀ c ∈ m.filterClauses.1, placeholders c = 1 := by
  rw [filterClauses_fst_flags]
  exact clausesOfFlags_one_placeholder _ _ _ _ _ _ _

theorem placeholders_parseFilterRestricts (m : FilterMemberArgs) :
    placeholders m.parseFilterRestricts.1 = m.parseFilterRestricts.2.length := by
  have hl := filterClauses_length m
  have h1 := filterClauses_one_placeholder m
  have hj := placeholders_Join m.filterClauses.1 h1
  have hw : placeholders "WHERE " = 0 := by decide
  simp only [FilterMemberArgs.parseFilterRestricts]
  by_cases hgt : 1 < m.filterClauses.1.length
  · simp only [hgt, if_true, placeholders_append, hw, hj]
    rw [Nat.zero_add]
    exact hl
  · by_cases h1 : m.filterClauses.1.length = 1
    · have hh : strings.Join m.filterClauses.1 " AND " = m.filterClauses.1.headD "" := by
        rw [← joinRestricts_eq_Join]
        simp [joinRestricts, h1]
      rw [if_neg hgt, if_pos h1, ← hh, placeholders_append, hw, hj, Nat.zero_add]
      exact hl
    · have h0 : m.filterClauses.1.length = 0 := by omega
      rw [if_neg hgt, if_neg h1, ← hl, h0]
      decide

theorem placeholders_parseLimit (h : Helpers) (m : FilterMemberArgs)
    (hs : m.Sorting ≠ "" → placeholders (h.OrderByHelper m.Sorting) = 0) :
    placeholders (m.parseLimit h).1 = (m.parseLimit h).2.length := by
  have h0 : placeholders "" = 0 := by decide
  have ho : placeholders " ORDER BY " = 0 := by decide
  have hl : placeholders " LIMIT ?" = 1 := by decide
  have hf : placeholders " OFFSET ?" = 1 := by decide
  have hlf : placeholders " LIMIT ? OFFSET ?" = 2 := by decide
  unfold FilterMemberArgs.parseLimit
  by_cases h1 : m.Sorting ≠ "" <;> by_cases h2 : 0 < m.MaxResult <;> by_cases h3 : 0 < m.Page <;>
    simp [h1, h2, h3, placeholders_append, h0, ho, hl, hf, hlf, hs]

theorem parse_count_eq (h : Helpers) (m : FilterMemberArgs) :
    m.parse h true = (countStatement m.filterClauses.1, m.filterClauses.2) := rfl

set_option maxRecDepth 100000 in
theorem countStatement_clean : ∀ i ml n cg cl ug ul : Bool,
    strings.Contains (countStatement (clausesOfFlags i ml n cg cl ug ul)) "ORDER BY" = false
      ∧ strings.Contains (countStatement (clausesOfFlags i ml n cg cl ug ul)) "LIMIT" = false
      ∧ strings.Contains (countStatement (clausesOfFlags i ml n cg cl ug ul)) "OFFSET" = false := by
  decide

theorem placeholders_Join_marks (n : Nat) :
    placeholders (strings.Join (List.replicate n "?") ", ") = n := by
  have hq : placeholders "?" = 1 := by decide
  have hsep : placeholders ", " = 0 := by decide
  induction n with
  | zero => simp [strings.Join, placeholders]
  | succ k ih =>
    cases k with
    | zero => simpa [strings.Join] using hq
    | succ j =>
      simp only [List.replicate_succ, strings.Join, placeholders_append, hq, hsep] at ih ⊢
      omega

theorem lookup_isSome_iff (d : List (String × Value)) (k : String) :
    (d.lookup k).isSome = true ↔ ∃ v, (k, v) ∈ d := by
  induction d with
  | nil => simp
  | cons kv d ih =>
    obtain ⟨a, b⟩ := kv
    by_cases hk : k = a
    · subst hk
      simp [List.lookup]
    · have hne : (k == a) = false := by simpa using hk
      simp only [List.lookup, hne, ih, List.mem_cons, Prod.mk.injEq]
      constructor
      · rintro ⟨v, hv⟩
        exact ⟨v, Or.inr hv⟩
      · rintro ⟨v, hv | hv⟩
        · exact absurd hv.1 hk
        · exact ⟨v, hv⟩

theorem lookup_mem (d : List (String × Value)) (k : String) (v : Value)
    (hl : d.lookup k = some v) : (k, v) ∈ d := by
  induction d with
  | nil => simp at hl
  | cons kv d ih =>
    obtain ⟨a, b⟩ := kv
    by_cases hk : k = a
    · subst hk
      simp [List.lookup] at hl
      simp [hl]
    · have hne : (k == a) = false := by simpa using hk
      simp only [List.lookup, hne] at hl
      exact List.mem_cons_of_mem _ (ih hl)

theorem filterClauses_pairs (m : FilterMemberArgs) :
    m.filterClauses
      = ((m.textPairs ++ m.datePairs).map Prod.fst, (m.textPairs ++ m.datePairs).map Prod.snd) := by
  rw [filterClauses_eq]
  simp only [FilterMemberArgs.textClauses, FilterMemberArgs.textPairs,
    FilterMemberArgs.datePairs, rangeClauses, createdClause_ge, createdClause_le,
    updatedClause_ge, updatedClause_le]
  generalize List.lookup "$gt" m.CreatedAt = g1
  generalize List.lookup "$lt" m.CreatedAt = l1
  generalize List.lookup "$gt" m.UpdatedAt = g2
  generalize List.lookup "$lt" m.UpdatedAt = l2
  by_cases h1 : m.ID ≠ 0 <;> by_cases h2 : m.Mail ≠ "" <;> by_cases h3 : m.Nickname ≠ "" <;>
    cases g1 <;> cases l1 <;> cases g2 <;> cases l2 <;> simp [h1, h2, h3]

theorem parseFilterRestricts_eq (m : FilterMemberArgs) :
    m.parseFilterRestricts = (whereText m.filterClauses.1, m.filterClauses.2) := by
  simp only [FilterMemberArgs.parseFilterRestricts, whereText]
  cases hc : m.filterClauses.1 with
  | nil => simp
  | cons a l =>
    cases l with
    | nil => simp [strings.Join]
    | cons b l => simp

theorem parseFilterRestricts_pairs (m : FilterMemberArgs) :
    m.parseFilterRestricts
      = (whereText ((m.textPairs ++ m.datePairs).map Prod.fst),
          (m.textPairs ++ m.datePairs).map Prod.snd) := by
  rw [parseFilterRestricts_eq, filterClauses_pairs]

theorem concatFragments_append (a b : List Fragment) :
    concatFragments (a ++ b)
      = ((concatFragments a).1 ++ (concatFragments b).1,
          (concatFragments a).2 ++ (concatFragments b).2) := by
  induction a with
  | nil => simp [concatFragments]
  | cons f a ih =>
    simp only [concatFragments, List.cons_append, List.foldr_cons, Prod.mk.injEq] at ih ⊢
    rw [ih.1, ih.2]
    simp [String.append_assoc]

theorem concatFragments_and (ps : List (String × Value)) :
    concatFragments (ps.map fun q => ((" AND " ++ q.1, [q.2]) : Fragment))
      = ((ps.map Prod.fst).foldr (fun c acc => " AND " ++ c ++ acc) "", ps.map Prod.snd) := by
  induction ps with
  | nil => simp [concatFragments]
  | cons p ps ih =>
    simp only [concatFragments, List.map_cons, List.foldr_cons, Prod.mk.injEq] at ih ⊢
    rw [ih.1, ih.2]
    simp

theorem Join_and_cons (c : String) (cs : List String) :
    strings.Join (c :: cs) " AND " = c ++ cs.foldr (fun d acc => " AND " ++ d ++ acc) "" := by
  induction cs generalizing c with
  | nil => simp [strings.Join]
  | cons d cs ih =>
    simp only [strings.Join, List.foldr_cons, ih d, String.append_assoc]

theorem concatFragments_where (ps : List (String × Value)) :
    concatFragments (whereFragments ps) = (whereText (ps.map Prod.fst), ps.map Prod.snd) := by
  cases ps with
  | nil => simp [whereFragments, concatFragments, whereText]
  | cons p ps =>
    have h := concatFragments_and ps
    simp only [concatFragments, Prod.mk.injEq] at h
    simp only [whereFragments, concatFragments, List.foldr_cons, h.1, h.2, whereText,
      List.map_cons, Join_and_cons]
    simp [String.append_assoc]

theorem parseLimit_fragments (h : Helpers) (m : FilterMemberArgs) :
    m.parseLimit h = concatFragments (m.limitFragments h) := by
  unfold FilterMemberArgs.parseLimit FilterMemberArgs.limitFragments concatFragments
  by_cases h1 : m.Sorting ≠ "" <;> by_cases h2 : 0 < m.MaxResult <;> by_cases h3 : 0 < m.Page <;>
    simp [h1, h2, h3, String.append_assoc]

theorem placeholders_concatFragments (fr : List Fragment)
    (hal : ∀ f ∈ fr, placeholders f.1 = f.2.length) :
    placeholders (concatFragments fr).1 = (concatFragments fr).2.length := by
  induction fr with
  | nil => simp [concatFragments, placeholders]
  | cons f fr ih =>
    have h1 := hal f (by simp)
    have h2 := ih (fun g hg => hal g (by simp [hg]))
    simp only [concatFragments, List.foldr_cons, placeholders_append, List.length_append] at h2 ⊢
    rw [h1, h2]

theorem whereFragments_aligned (ps : List (String × Value))
    (h1 : ∀ p ∈ ps, placeholders p.1 = 1) :
    ∀ f ∈ whereFragments ps, placeholders f.1 = f.2.length := by
  have hw : placeholders "WHERE " = 0 := by decide
  have ha : placeholders " AND " = 0 := by decide
  cases ps with
  | nil => simp [whereFragments]
  | cons p ps =>
    intro f hf
    simp only [whereFragments, List.mem_cons, List.mem_map] at hf
    rcases hf with rfl | ⟨q, hq, rfl⟩
    · simp [placeholders_append, hw, h1 p (by simp)]
    · simp [placeholders_append, ha, h1 q (by simp [hq])]

theorem predicatePairs_one_placeholder (m : FilterMemberArgs) :
    ∀ p ∈ m.textPairs ++ m.datePairs, placeholders p.1 = 1 := by
  intro p hp
  have hmem : p.1 ∈ m.filterClauses.1 := by
    rw [filterClauses_pairs]
    exact List.mem_map_of_mem Prod.fst hp
  exact filterClauses_one_placeholder m p.1 hmem

theorem limitFragments_aligned (h : Helpers) (m : FilterMemberArgs)
    (hs : m.Sorting ≠ "" → placeholders (h.OrderByHelper m.Sorting) = 0) :
    ∀ f ∈ m.limitFragments h, placeholders f.1 = f.2.length := by
  have ho : placeholders " ORDER BY " = 0 := by decide
  have hl : placeholders " LIMIT ?" = 1 := by decide
  have hf : placeholders " OFFSET ?" = 1 := by decide
  intro f hmem
  unfold FilterMemberArgs.limitFragments at hmem
  rcases List.mem_append.1 hmem with hm | hm
  · by_cases h1 : m.Sorting ≠ ""
    · rw [if_pos h1] at hm
      have e : f = (" ORDER BY " ++ h.OrderByHelper m.Sorting, []) := by simpa using hm
      subst e
      simp [placeholders_append, ho, hs h1]
    · rw [if_neg h1] at hm
      simp at hm
  · by_cases h2 : 0 < m.MaxResult
    · rw [if_pos h2] at hm
      rcases List.mem_cons.1 hm with e | hm
      · subst e
        simp [hl]
      · by_cases h3 : 0 < m.Page
        · rw [if_pos h3] at hm
          have e : f = (" OFFSET ?", [Value.int (h.wrapInt ((m.Page - 1) * m.MaxResult))]) := by
            simpa using hm
          subst e
          simp [hf]
        · rw [if_neg h3] at hm
          simp at hm
    · rw [if_neg h2] at hm
      simp at hm

/-- The part of `InsertMember` that follows a duplicate check which read a non-zero id. -/
theorem InsertMember_of_found (d : Driver) (m : Member) (id : Int)
    (hfound : d.Get "SELECT id FROM members WHERE id=? OR member_id=? LIMIT 1;"
        [Value.int m.ID, Value.str m.MemberID] = .ok id)
    (hid : id ≠ 0) :
    memberAPI.InsertMember d m
      = ⟨.returned (0, some (Error.New "Duplicate entry")),
          ["SELECT id FROM members WHERE id=? OR member_id=? LIMIT 1;"]⟩ := by
  simp [memberAPI.InsertMember, hfound, hid]

/-! ## The claims -/

/-- C1 (code defect): the offset is computed in `uint16`, so it is not always the exact
product. For page 259 with 255 members per page `parseLimit` binds `[255, 254]` after
` LIMIT ? OFFSET ?`, while `(259-1)*255` is 65790; `GetMembers` binds the same wrapped
offset 254. -/
theorem C1_offset_wraps_on_deep_page (h : Helpers) :
    deepPage.parseLimit h
        = (" ORDER BY " ++ h.OrderByHelper "-updated_at" ++ " LIMIT ? OFFSET ?",
            [Value.int 255, Value.int 254])
      ∧ (deepPage.Page.val - 1) * deepPage.MaxResult.val = 65790
      ∧ memberAPI.GetMembers.query specHelpers deepPage
        = .ok ("SELECT * FROM members where members.active NOT IN (?) "
              ++ "ORDER BY updated_at DESC LIMIT ? OFFSET ?",
            [Value.int (-1), Value.int 255, Value.int 254]) := by
  refine ⟨?_, by decide, by decide⟩
  have e : deepPage.parseLimit h
      = (" ORDER BY " ++ h.OrderByHelper "-updated_at" ++ " LIMIT ?" ++ " OFFSET ?",
          [Value.int 255, Value.int 254]) := rfl
  rw [e, String.append_assoc _ " LIMIT ?" " OFFSET ?"]
  rfl

/-- C2 (claim as stated fails): with the two operator keys `$nin` and `$in` in `Active`
the builders return a predicate with two `members.active` clauses, the count statement is
built from it, and `GetMembers` reaches its statement instead of returning
`Too many active lists`. -/
theorem C2_two_operator_keys_build_a_query :
    moreThanOneActive.activeKeys = 2
      ∧ moreThanOneActive.parseRestricts specHelpers
        = ("members.active NOT IN (?) AND members.active IN (?)",
            [Value.ints [1, 0], Value.ints [-1, 3]])
      ∧ moreThanOneActive.ParseCountQuery specHelpers
        = ("SELECT COUNT(*) FROM (SELECT id FROM members WHERE "
              ++ "members.active NOT IN (?) AND members.active IN (?)) AS subquery",
            [Value.ints [1, 0], Value.ints [-1, 3]])
      ∧ memberAPI.GetMembers.query specHelpers moreThanOneActive
        = .ok ("SELECT * FROM members where members.active NOT IN (?, ?) AND "
              ++ "members.active IN (?, ?) ORDER BY updated_at DESC LIMIT ? OFFSET ?",
            [Value.int 1, Value.int 0, Value.int (-1), Value.int 3, Value.int 20, Value.int 0])
      ∧ memberAPI.GetMembers.query specHelpers moreThanOneActive
        ≠ .error "Too many active lists" := by
  decide

/-- C3 (claim as stated fails): with an active filter and a role filter the equality
clause `role = ?` stands after the set-membership clause `members.active IN (?)`. -/
theorem C3_role_follows_active :
    (activeAndRole.restrictClauses specHelpers).1 = ["members.active IN (?)", "role = ?"]
      ∧ equalityFirst (activeAndRole.restrictClauses specHelpers).1 = false
      ∧ activeAndRole.parseRestricts specHelpers
        = ("members.active IN (?) AND role = ?", [Value.ints [1], Value.int 3]) := by
  decide

/-- C3 (amended): `parseRestricts` joins the contributed clauses with ` AND ` in the order
`custom_editor`, `members.active` (one clause per operator key, in the order the
dictionary is visited), `role`, `members.id`, `members.uuid`, and binds the values in the
same order. -/
theorem C3_clauses_joined_in_declared_order (h : Helpers) (m : GetMembersArgs) :
    (m.parseRestricts h).1
        = strings.Join (m.customEditorClause ++ m.activeClauses h ++ m.roleClause
            ++ m.idsClause ++ m.uuidsClause) " AND "
      ∧ (m.parseRestricts h).2
        = (if m.CustomEditor then [Value.bool true] else []) ++ m.activeValues
          ++ (match m.Role with | some r => [Value.int r] | none => [])
          ++ m.IDs.map Value.str ++ m.UUIDs.map Value.str := by
  rw [parseRestricts_eq]
  exact ⟨rfl, rfl⟩

/-- C6 (code defect): `anyFilter` looks at `Active` and `CustomEditor` only. With a role
filter alone `parseRestricts` yields `role = ?` bound to the role, but `ParseCountQuery`
returns the unrestricted count statement with no bound value. -/
theorem C6_count_ignores_role_filter (h : Helpers) :
    roleOnly.parseRestricts h = ("role = ?", [Value.int 9])
      ∧ roleOnly.ParseCountQuery h = ("SELECT COUNT(*) FROM members", []) := by
  constructor
  · rw [parseRestricts_eq]
    simp [roleOnly, GetMembersArgs.customEditorClause, GetMembersArgs.activeClauses,
      GetMembersArgs.roleClause, GetMembersArgs.idsClause, GetMembersArgs.uuidsClause,
      GetMembersArgs.activeValues, strings.Join]
  · simp [GetMembersArgs.ParseCountQuery, GetMembersArgs.anyFilter, roleOnly]

/-- C9 (code defect): `GetMembers` does not go through `parseLimit`. With page size zero
`parseLimit` emits neither `LIMIT` nor `OFFSET`, but the statement `GetMembers` executes
still ends with `LIMIT ? OFFSET ?` and binds `0` and `0` for them. -/
theorem C9_GetMembers_limits_with_page_size_zero :
    unboundedPage.parseLimit specHelpers = (" ORDER BY updated_at DESC", [])
      ∧ memberAPI.GetMembers.query specHelpers unboundedPage
        = .ok ("SELECT * FROM members where members.active NOT IN (?) "
              ++ "ORDER BY updated_at DESC LIMIT ? OFFSET ?",
            [Value.int (-1), Value.int 0, Value.int 0]) := by
  decide

/-- C7: `Validate` returns an error exactly when the keyword is empty or some requested
field is not a known field. With an empty keyword the error is `Invalid keyword`, whatever
the fields; otherwise it is `Invalid fields: f` for the first requested field `f`, in
request order, that is not known. -/
theorem C7_Validate_error_iff (vf : List String) (a : GetMembersKeywordsArgs) :
    ((∃ e, a.Validate vf = .error e) ↔ (a.Keywords = "" ∨ ∃ f ∈ a.Fields, f ∉ vf))
      ∧ (a.Keywords = "" → a.Validate vf = .error "Invalid keyword")
      ∧ (∀ pre f post, a.Keywords ≠ "" → a.Fields = pre ++ f :: post →
          (∀ g ∈ pre, g ∈ vf) → f ∉ vf → a.Validate vf = .error ("Invalid fields: " ++ f))
      ∧ (∀ e, a.Validate vf = .error e → a.Keywords ≠ "" →
          ∃ pre f post, a.Fields = pre ++ f :: post ∧ (∀ g ∈ pre, g ∈ vf) ∧ f ∉ vf
            ∧ e = "Invalid fields: " ++ f) := by
  refine ⟨?_, ?_, ?_, ?_⟩
  · constructor
    · rintro ⟨e, he⟩
      by_cases hk : a.Keywords = ""
      · exact Or.inl hk
      · right
        by_contra hall
        have hall2 : ∀ f ∈ a.Fields, f ∈ vf := by
          intro f hf
          by_contra hn
          exact hall ⟨f, hf, hn⟩
        have hnone := (checkEachField_eq_none_iff vf a.Fields).2 hall2
        simp [GetMembersKeywordsArgs.Validate, hk, hnone] at he
    · rintro (hk | ⟨f, hf, hn⟩)
      · exact ⟨"Invalid keyword", by simp [GetMembersKeywordsArgs.Validate, hk]⟩
      · by_cases hk : a.Keywords = ""
        · exact ⟨"Invalid keyword", by simp [GetMembersKeywordsArgs.Validate, hk]⟩
        · cases hc : checkEachField vf a.Fields with
          | none => exact absurd ((checkEachField_eq_none_iff vf a.Fields).1 hc f hf) hn
          | some g => exact ⟨"Invalid fields: " ++ g, by
              simp [GetMembersKeywordsArgs.Validate, hk, hc]⟩
  · intro hk
    simp [GetMembersKeywordsArgs.Validate, hk]
  · intro pre f post hk hsplit hpre hf
    have hc := checkEachField_first vf pre post f hpre hf
    rw [← hsplit] at hc
    simp [GetMembersKeywordsArgs.Validate, hk, hc]
  · intro e he hk
    cases hc : checkEachField vf a.Fields with
    | none => simp [GetMembersKeywordsArgs.Validate, hk, hc] at he
    | some g =>
      obtain ⟨pre, post, e1, hpre, hg⟩ := checkEachField_some_split vf a.Fields g hc
      refine ⟨pre, g, post, e1, hpre, hg, ?_⟩
      simp [GetMembersKeywordsArgs.Validate, hk, hc] at he
      exact he.symm

/-- C7, at a request whose second field `line` is the first unknown one. -/
theorem C7_Validate_error_iff_witness :
    unknownFieldRequest.Validate Stunt.dbTags = .error "Invalid fields: line" :=
  (C7_Validate_error_iff Stunt.dbTags unknownFieldRequest).2.2.1 ["mail"] "line" ["colour"]
    (by decide) rfl (by decide) (by decide)

/-- C8: after a successful `Validate` the fields are the caller's fields, unchanged and
in their order, followed by `id` if the caller had not requested it and then by
`nickname` if the caller had not requested it. Both are among the resulting fields, and
`Validate` adds no second occurrence of either. Keyword and roles are unchanged. -/
theorem C8_Validate_injects_id_and_nickname (vf : List String)
    (a a' : GetMembersKeywordsArgs) (hok : a.Validate vf = .ok a') :
    "id" ∈ a'.Fields ∧ "nickname" ∈ a'.Fields
      ∧ a'.Fields = a.Fields ++ (if "id" ∈ a.Fields then [] else ["id"])
          ++ (if "nickname" ∈ a.Fields then [] else ["nickname"])
      ∧ a'.Fields.count "id" = (if "id" ∈ a.Fields then a.Fields.count "id" else 1)
      ∧ a'.Fields.count "nickname"
          = (if "nickname" ∈ a.Fields then a.Fields.count "nickname" else 1)
      ∧ a'.Keywords = a.Keywords ∧ a'.Roles = a.Roles := by
  have e := Validate_ok_fields vf a a' hok
  subst e
  have hn : ("nickname" : String) ≠ "id" := by decide
  have hn2 : ("id" : String) ≠ "nickname" := by decide
  by_cases h1 : "id" ∈ a.Fields <;> by_cases h2 : "nickname" ∈ a.Fields <;>
    simp [h1, h2, List.count_eq_zero_of_not_mem, hn, hn2]

/-- C8, at a request for `nickname` and `mail`: only `id` is appended. -/
theorem C8_Validate_injects_id_and_nickname_witness :
    nicknameMailRequest.Validate Stunt.dbTags
        = .ok { nicknameMailRequest with Fields := ["nickname", "mail", "id"] }
      ∧ "id" ∈ ["nickname", "mail", "id"] ∧ "nickname" ∈ ["nickname", "mail", "id"] :=
  ⟨by decide,
    (C8_Validate_injects_id_and_nickname Stunt.dbTags nicknameMailRequest
      { nicknameMailRequest with Fields := ["nickname", "mail", "id"] } (by decide)).1,
    (C8_Validate_injects_id_and_nickname Stunt.dbTags nicknameMailRequest
      { nicknameMailRequest with Fields := ["nickname", "mail", "id"] } (by decide)).2.1⟩

/-- C5: the count statement and its bound values do not change when `Sorting`,
`MaxResult` and `Page` change. The statement is the count header followed by the predicate
of `parseFilterRestricts` alone, it contains none of `ORDER BY`, `LIMIT`, `OFFSET`, and the
bound values are exactly the predicate values. -/
theorem C5_count_ignores_pagination (h : Helpers) (m : FilterMemberArgs)
    (s : String) (n p : Int) :
    ({ m with Sorting := s, MaxResult := n, Page := p } : FilterMemberArgs).ParseCountQuery h
        = m.ParseCountQuery h
      ∧ (m.ParseCountQuery h).2 = m.parseFilterRestricts.2
      ∧ (m.ParseCountQuery h).1
          = "\n\t\tSELECT " ++ "COUNT(member_id)" ++ " FROM members "
            ++ m.parseFilterRestricts.1 ++ " "
      ∧ strings.Contains (m.ParseCountQuery h).1 "ORDER BY" = false
      ∧ strings.Contains (m.ParseCountQuery h).1 "LIMIT" = false
      ∧ strings.Contains (m.ParseCountQuery h).1 "OFFSET" = false := by
  have hc := countStatement_clean (decide (m.ID ≠ 0)) (decide (m.Mail ≠ ""))
    (decide (m.Nickname ≠ "")) (m.CreatedAt.lookup "$gt").isSome
    (m.CreatedAt.lookup "$lt").isSome (m.UpdatedAt.lookup "$gt").isSome
    (m.UpdatedAt.lookup "$lt").isSome
  rw [← filterClauses_fst_flags] at hc
  have e : (m.ParseCountQuery h).1 = countStatement m.filterClauses.1 := rfl
  refine ⟨rfl, rfl, rfl, ?_, ?_, ?_⟩
  · rw [e]; exact hc.1
  · rw [e]; exact hc.2.1
  · rw [e]; exact hc.2.2

/-- C14: when the bulk update was executed and reports `n` affected rows for the id list
`ids`, `UpdateAll` returns `Members Not Found` for `n = 0`, `More Rows Affected` for
`n > len(ids)` and no error for `1 <= n <= len(ids)`. -/
theorem C14_affected_rows_of_bulk_update (h : Helpers) (d : Driver) (ids : List Int)
    (active : Int) (query : String) (args : List Value) (res : Result)
    (hIn : h.In ("UPDATE members SET active = " ++ toString active ++ " WHERE id IN (?);")
        [Value.ints ids] = .ok (query, args))
    (hExec : d.Exec (h.Rebind query) args = .ok res)
    (hErr : res.RowsAffected.2 = none) :
    (res.RowsAffected.1 = 0 →
        memberAPI.UpdateAll h d ids active = .returned (some (Error.New "Members Not Found")))
      ∧ ((ids.length : Int) < res.RowsAffected.1 →
        memberAPI.UpdateAll h d ids active = .returned (some (Error.New "More Rows Affected")))
      ∧ (1 ≤ res.RowsAffected.1 → res.RowsAffected.1 ≤ (ids.length : Int) →
        memberAPI.UpdateAll h d ids active = .returned none) := by
  refine ⟨?_, ?_, ?_⟩
  · intro h0
    have hlen : ¬ ((ids.length : Int) < 0) := by omega
    simp [memberAPI.UpdateAll, hIn, hExec, h0, hlen]
  · intro h1
    simp [memberAPI.UpdateAll, hIn, hExec, h1]
  · intro h1 h2
    have hn : ¬ ((ids.length : Int) < res.RowsAffected.1) := by omega
    have h0 : ¬ res.RowsAffected.1 = 0 := by omega
    simp [memberAPI.UpdateAll, hIn, hExec, hn, h0, hErr]

/-- C14, at a bulk update of two ids that reports two affected rows. -/
theorem C14_affected_rows_of_bulk_update_witness :
    memberAPI.UpdateAll specHelpers (tableDriver [] (affected 2) (.ok {})) [1, 2] 1
      = .returned none :=
  (C14_affected_rows_of_bulk_update specHelpers (tableDriver [] (affected 2) (.ok {})) [1, 2] 1
    "UPDATE members SET active = 1 WHERE id IN (?, ?);" [Value.int 1, Value.int 2]
    { RowsAffected := (2, none), LastInsertId := (0, none) } (by decide) rfl rfl).2.2
    (by decide) (by decide)

/-- C16 (code defect): a driver error other than `no rows` ends the process in `GetMember`
and in `UpdateMember` (`log.Fatal`), while `DeleteMember` returns the same error to its
caller. -/
theorem C16_driver_error_is_fatal (rows : List Member) (exec : Except Error Result)
    (row : Except Error Member) (msg : String) (req : GetMemberArgs) (m : Member)
    (idType id : String) :
    memberAPI.GetMember (tableDriver rows exec (.error (Error.New msg))) req
        = .fatal (Error.New msg)
      ∧ memberAPI.UpdateMember (tableDriver rows (.error (Error.New msg)) row) m
        = .fatal (Error.New msg)
      ∧ memberAPI.DeleteMember (tableDriver rows (.error (Error.New msg)) row) idType id
        = .returned (some (Error.New msg)) := by
  refine ⟨?_, ?_, ?_⟩
  · simp [memberAPI.GetMember, tableDriver]
  · simp [memberAPI.UpdateMember, tableDriver]
  · simp [memberAPI.DeleteMember, tableDriver]

/-- C17: `SetDefault` sets `MaxResult` to 20, `Page` to 1 and `Sorting` to `-updated_at`
and leaves `CustomEditor`, `Role`, `Active`, `IDs`, `UUIDs` and `Total` as they were. -/
theorem C17_SetDefault_frame (m : GetMembersArgs) :
    m.SetDefault.Sorting = "-updated_at"
      ∧ m.SetDefault.MaxResult = 20 ∧ m.SetDefault.Page = 1
      ∧ m.SetDefault.CustomEditor = m.CustomEditor ∧ m.SetDefault.Role = m.Role
      ∧ m.SetDefault.Active = m.Active ∧ m.SetDefault.IDs = m.IDs
      ∧ m.SetDefault.UUIDs = m.UUIDs ∧ m.SetDefault.Total = m.Total :=
  ⟨rfl, rfl, rfl, rfl, rfl, rfl, rfl, rfl, rfl⟩

/-- C18: with non-empty `ID` and `IDType`, `parseRestricts` returns `<IDType> = ?` bound
to `ID` when `Mode` is empty and `<IDType> = ? AND register_mode = ?` bound to `ID` then
`Mode` when `Mode` is not empty. When `ID` or `IDType` is empty the identifier clause and
its value are left out: the result is `register_mode = ?` bound to `Mode`, or the empty
predicate with no value when `Mode` is empty too. -/
theorem C18_lookup_predicate (m : GetMemberArgs) :
    (m.ID ≠ "" → m.IDType ≠ "" → m.Mode = "" →
        m.parseRestricts = (m.IDType ++ " = ?", [Value.str m.ID]))
      ∧ (m.ID ≠ "" → m.IDType ≠ "" → m.Mode ≠ "" →
        m.parseRestricts
          = (m.IDType ++ " = ?" ++ " AND " ++ "register_mode = ?",
              [Value.str m.ID, Value.str m.Mode]))
      ∧ ((m.ID = "" ∨ m.IDType = "") → m.Mode ≠ "" →
        m.parseRestricts = ("register_mode = ?", [Value.str m.Mode]))
      ∧ ((m.ID = "" ∨ m.IDType = "") → m.Mode = "" → m.parseRestricts = ("", [])) := by
  refine ⟨?_, ?_, ?_, ?_⟩
  · intro h1 h2 h3
    simp [GetMemberArgs.parseRestricts, h1, h2, h3, joinRestricts]
  · intro h1 h2 h3
    simp [GetMemberArgs.parseRestricts, h1, h2, h3, joinRestricts, strings.Join,
      String.append_assoc]
  · intro h1 h3
    have hc : ¬ (m.ID ≠ "" ∧ m.IDType ≠ "") := by
      rintro ⟨a, b⟩
      rcases h1 with h1 | h1
      · exact a h1
      · exact b h1
    simp only [GetMemberArgs.parseRestricts, if_neg hc]
    simp [h3, joinRestricts]
  · intro h1 h3
    have hc : ¬ (m.ID ≠ "" ∧ m.IDType ≠ "") := by
      rintro ⟨a, b⟩
      rcases h1 with h1 | h1
      · exact a h1
      · exact b h1
    simp only [GetMemberArgs.parseRestricts, if_neg hc]
    simp [h3, joinRestricts]

/-- C18, at a lookup by numeric id with a registration mode. -/
theorem C18_lookup_predicate_witness :
    lookupByIdAndMode.parseRestricts
      = ("id = ? AND register_mode = ?", [Value.str "1", Value.str "ordinary"]) :=
  ((C18_lookup_predicate lookupByIdAndMode).2.1 (by decide) (by decide) (by decide)).trans
    (by decide)

/-- C19 (code defect): with an `Active` dictionary that is present but has no key,
`anyFilter` holds while `parseRestricts` yields the empty predicate, and the count
statement carries `WHERE` directly followed by the closing parenthesis. -/
theorem C19_empty_active_gives_empty_where (h : Helpers) :
    emptyActive.anyFilter = true
      ∧ emptyActive.parseRestricts h = ("", [])
      ∧ emptyActive.ParseCountQuery h
        = ("SELECT COUNT(*) FROM (SELECT id FROM members WHERE ) AS subquery", []) := by
  refine ⟨rfl, rfl, rfl⟩

/-- C2 (amended): the predicate builders have no error result. For an `Active` dictionary
with any number of operator keys, `parseRestricts` returns the predicate in which every
key has its own clause `members.active <op> (?)`, joined by ` AND ` between the
`custom_editor` clause and the `role`, `members.id`, `members.uuid` clauses, and binds one
list per key at the same place; `ParseCountQuery` returns the count statement around that
predicate with the same values. -/
theorem C2_active_clause_per_key_in_predicate (h : Helpers) (m : GetMembersArgs)
    (active : List (String × List Int)) (hA : m.Active = some active) :
    m.parseRestricts h
        = (strings.Join
            (m.customEditorClause
              ++ (active.map fun kv => "members.active " ++ h.OperatorHelper kv.1 ++ " (?)")
              ++ (m.roleClause ++ m.idsClause ++ m.uuidsClause)) " AND ",
          (if m.CustomEditor then [Value.bool true] else [])
            ++ (active.map fun kv => Value.ints kv.2)
            ++ (m.Role.toList.map Value.int ++ m.IDs.map Value.str ++ m.UUIDs.map Value.str))
      ∧ m.ParseCountQuery h
        = ("SELECT COUNT(*) FROM (SELECT id FROM members WHERE "
            ++ strings.Join
              (m.customEditorClause
                ++ (active.map fun kv => "members.active " ++ h.OperatorHelper kv.1 ++ " (?)")
                ++ (m.roleClause ++ m.idsClause ++ m.uuidsClause)) " AND "
            ++ ") AS subquery",
          (if m.CustomEditor then [Value.bool true] else [])
            ++ (active.map fun kv => Value.ints kv.2)
            ++ (m.Role.toList.map Value.int ++ m.IDs.map Value.str
              ++ m.UUIDs.map Value.str)) := by
  have e1 : m.parseRestricts h
      = (strings.Join
          (m.customEditorClause
            ++ (active.map fun kv => "members.active " ++ h.OperatorHelper kv.1 ++ " (?)")
            ++ (m.roleClause ++ m.idsClause ++ m.uuidsClause)) " AND ",
        (if m.CustomEditor then [Value.bool true] else [])
          ++ (active.map fun kv => Value.ints kv.2)
          ++ (m.Role.toList.map Value.int ++ m.IDs.map Value.str ++ m.UUIDs.map Value.str)) := by
    rw [parseRestricts_eq]
    simp only [GetMembersArgs.activeClauses, GetMembersArgs.activeValues, hA]
    cases m.Role <;> simp [List.append_assoc]
  refine ⟨e1, ?_⟩
  have hany : m.anyFilter = true := by simp [GetMembersArgs.anyFilter, hA]
  simp only [GetMembersArgs.ParseCountQuery, hany, Bool.not_true, Bool.false_eq_true, if_false,
    e1]

/-- C2 (amended), at the request of the test `MoreThanOneActive`: predicate and count
statement carry both clauses. -/
theorem C2_active_clause_per_key_in_predicate_witness :
    moreThanOneActive.Active = some [("$nin", [1, 0]), ("$in", [-1, 3])]
      ∧ moreThanOneActive.parseRestricts specHelpers
        = ("members.active NOT IN (?) AND members.active IN (?)",
            [Value.ints [1, 0], Value.ints [-1, 3]])
      ∧ moreThanOneActive.ParseCountQuery specHelpers
        = ("SELECT COUNT(*) FROM (SELECT id FROM members WHERE "
              ++ "members.active NOT IN (?) AND members.active IN (?)) AS subquery",
            [Value.ints [1, 0], Value.ints [-1, 3]]) :=
  ⟨rfl,
    ((C2_active_clause_per_key_in_predicate specHelpers moreThanOneActive
      [("$nin", [1, 0]), ("$in", [-1, 3])] rfl).1).trans (by decide),
    ((C2_active_clause_per_key_in_predicate specHelpers moreThanOneActive
      [("$nin", [1, 0]), ("$in", [-1, 3])] rfl).2).trans (by decide)⟩

/-- C4: the non-count query binds the predicate values followed by the pagination values,
and every value sits at the placeholder of the clause that produced it. The predicate
returned by `parseFilterRestricts` and the pagination returned by `parseLimit` are the
concatenation, text by text and value by value, of these fragments in this order: each
contributed clause (after `WHERE ` or ` AND `) with its own value, the sort expression
with no value, ` LIMIT ?` with the page size, ` OFFSET ?` with the offset. When the sort
expression holds no `?`, every fragment holds as many `?` as it has values, so for every
`k` the first `k` fragments hold exactly the placeholders of their own values, and the
whole fragment has as many `?` as the query has bound values. -/
theorem C4_values_bind_their_placeholders (h : Helpers) (m : FilterMemberArgs)
    (hs : m.Sorting ≠ "" → placeholders (h.OrderByHelper m.Sorting) = 0) :
    (m.parse h false).2 = m.parseFilterRestricts.2 ++ (m.parseLimit h).2
      ∧ (m.parse h false).1
          = "\n\t\tSELECT " ++ h.GetFields m.Fields "%s \"%s\"" ++ " FROM members "
            ++ (m.parseFilterRestricts.1 ++ (m.parseLimit h).1) ++ " "
      ∧ m.parseFilterRestricts = concatFragments (whereFragments (m.textPairs ++ m.datePairs))
      ∧ m.parseLimit h = concatFragments (m.limitFragments h)
      ∧ (m.parseFilterRestricts.1 ++ (m.parseLimit h).1, (m.parse h false).2)
          = concatFragments (whereFragments (m.textPairs ++ m.datePairs) ++ m.limitFragments h)
      ∧ (∀ f ∈ whereFragments (m.textPairs ++ m.datePairs) ++ m.limitFragments h,
          placeholders f.1 = f.2.length)
      ∧ (∀ k, placeholders (concatFragments
            ((whereFragments (m.textPairs ++ m.datePairs) ++ m.limitFragments h).take k)).1
          = (concatFragments
            ((whereFragments (m.textPairs ++ m.datePairs) ++ m.limitFragments h).take k)).2.length)
      ∧ placeholders (m.parseFilterRestricts.1 ++ (m.parseLimit h).1)
          = (m.parse h false).2.length
      ∧ placeholders m.parseFilterRestricts.1 = m.parseFilterRestricts.2.length
      ∧ placeholders (m.parseLimit h).1 = (m.parseLimit h).2.length := by
  have e1 : (m.parse h false).2 = m.parseFilterRestricts.2 ++ (m.parseLimit h).2 := by
    simp [FilterMemberArgs.parse]
  have ew : m.parseFilterRestricts
      = concatFragments (whereFragments (m.textPairs ++ m.datePairs)) := by
    rw [concatFragments_where, parseFilterRestricts_pairs]
  have el := parseLimit_fragments h m
  have hal : ∀ f ∈ whereFragments (m.textPairs ++ m.datePairs) ++ m.limitFragments h,
      placeholders f.1 = f.2.length := by
    intro f hf
    rcases List.mem_append.1 hf with hf | hf
    · exact whereFragments_aligned _ (predicatePairs_one_placeholder m) f hf
    · exact limitFragments_aligned h m hs f hf
  refine ⟨e1, rfl, ew, el, ?_, hal, ?_, ?_, placeholders_parseFilterRestricts m,
    placeholders_parseLimit h m hs⟩
  · rw [concatFragments_append, ← ew, ← el, e1]
  · intro k
    exact placeholders_concatFragments _ (fun f hf => hal f (List.mem_of_mem_take hf))
  · rw [e1, placeholders_append, placeholders_parseFilterRestricts m,
      placeholders_parseLimit h m hs, List.length_append]

/-- C4, at a request with three text filters, one date bound and page 3 of pages of 10:
the fragments, then the text and the values of the query. -/
theorem C4_values_bind_their_placeholders_witness :
    (wildcardFilter.Sorting ≠ "" →
        placeholders (specHelpers.OrderByHelper wildcardFilter.Sorting) = 0)
      ∧ whereFragments (wildcardFilter.textPairs ++ wildcardFilter.datePairs)
          ++ wildcardFilter.limitFragments specHelpers
        = [("WHERE CAST(members.id as CHAR) LIKE ?", [Value.str "%-5%"]),
            (" AND CAST(members.mail as CHAR) LIKE ?", [Value.str "%a%b_c%"]),
            (" AND CAST(members.nickname as CHAR) LIKE ?", [Value.str "%readr%"]),
            (" AND members.created_at <= ?", [Value.time 3]),
            (" ORDER BY updated_at DESC", []),
            (" LIMIT ?", [Value.int 10]),
            (" OFFSET ?", [Value.int 20])]
      ∧ (wildcardFilter.parseFilterRestricts.1 ++ (wildcardFilter.parseLimit specHelpers).1,
          (wildcardFilter.parse specHelpers false).2)
        = ("WHERE CAST(members.id as CHAR) LIKE ? AND CAST(members.mail as CHAR) LIKE ?"
              ++ " AND CAST(members.nickname as CHAR) LIKE ? AND members.created_at <= ?"
              ++ " ORDER BY updated_at DESC LIMIT ? OFFSET ?",
            [Value.str "%-5%", Value.str "%a%b_c%", Value.str "%readr%", Value.time 3,
              Value.int 10, Value.int 20]) :=
  ⟨by decide, by decide,
    ((C4_values_bind_their_placeholders specHelpers wildcardFilter (by decide)).2.2.2.2.1).trans
      (by rfl)⟩

/-- C10: the predicate and the values that `parseFilterRestricts` returns start with the
text filters, in the order id, mail, nickname. Each one that is set (non-zero `ID`,
non-empty `Mail`, non-empty `Nickname`) contributes its clause
`CAST(members.<col> as CHAR) LIKE ?` once, bound to the characters of the raw value (the
decimal digits of the id, with a leading `-` when negative) between two `%`, nothing
escaped; one that is not set contributes no clause and no value. The clauses that follow
are the date clauses. -/
theorem C10_text_filters_in_predicate (m : FilterMemberArgs) :
    m.parseFilterRestricts
        = (whereText ((m.textPairs ++ m.datePairs).map Prod.fst),
            (m.textPairs ++ m.datePairs).map Prod.snd)
      ∧ m.textPairs
        = (if m.ID ≠ 0 then
              [("CAST(members.id as CHAR) LIKE ?",
                Value.str (String.mk ('%' :: (toString m.ID).data ++ ['%'])))]
            else [])
          ++ (if m.Mail ≠ "" then
              [("CAST(members.mail as CHAR) LIKE ?",
                Value.str (String.mk ('%' :: m.Mail.data ++ ['%'])))]
            else [])
          ++ (if m.Nickname ≠ "" then
              [("CAST(members.nickname as CHAR) LIKE ?",
                Value.str (String.mk ('%' :: m.Nickname.data ++ ['%'])))]
            else [])
      ∧ (∀ p ∈ m.datePairs, p.1 ∈ ["members.created_at >= ?", "members.created_at <= ?",
          "members.updated_at >= ?", "members.updated_at <= ?"])
      ∧ (∀ x : String, String.mk ('%' :: x.data ++ ['%']) = "%" ++ x ++ "%")
      ∧ toString m.ID
        = (match m.ID with
            | Int.ofNat k => Nat.repr k
            | Int.negSucc k => "-" ++ Nat.repr (k + 1)) := by
  refine ⟨parseFilterRestricts_pairs m, rfl, ?_, fun x => (wrapPercent x).symm, ?_⟩
  · intro p hp
    simp only [FilterMemberArgs.datePairs] at hp
    generalize List.lookup "$gt" m.CreatedAt = g1 at hp
    generalize List.lookup "$lt" m.CreatedAt = l1 at hp
    generalize List.lookup "$gt" m.UpdatedAt = g2 at hp
    generalize List.lookup "$lt" m.UpdatedAt = l2 at hp
    cases g1 <;> cases l1 <;> cases g2 <;> cases l2 <;> simp at hp <;> aesop
  · cases m.ID <;> rfl

/-- C10, at a request whose mail filter holds the wildcard characters `%` and `_`. -/
theorem C10_text_filters_in_predicate_witness :
    wildcardFilter.parseFilterRestricts
      = ("WHERE CAST(members.id as CHAR) LIKE ? AND CAST(members.mail as CHAR) LIKE ?"
            ++ " AND CAST(members.nickname as CHAR) LIKE ? AND members.created_at <= ?",
          [Value.str "%-5%", Value.str "%a%b_c%", Value.str "%readr%", Value.time 3]) :=
  ((C10_text_filters_in_predicate wildcardFilter).1).trans (by decide)

/-- C11: in the predicate and the values that `parseFilterRestricts` returns, the date
clauses follow the text clauses. For each date field the dictionary contributes
`members.<field> >= ?` bound to the `$gt` value exactly when the key `$gt` is present and
`members.<field> <= ?` bound to the `$lt` value exactly when the key `$lt` is present, the
lower bound first, the creation date before the update date. A key is present when the
dictionary has an entry for it, the bound value is that entry, and a dictionary without
these keys, an empty one included, contributes no clause and no value. -/
theorem C11_date_bounds_in_predicate (m : FilterMemberArgs) :
    m.parseFilterRestricts
        = (whereText ((m.textPairs ++ m.datePairs).map Prod.fst),
            (m.textPairs ++ m.datePairs).map Prod.snd)
      ∧ m.datePairs
        = ((m.CreatedAt.lookup "$gt").map fun v => ("members.created_at >= ?", v)).toList
          ++ ((m.CreatedAt.lookup "$lt").map fun v => ("members.created_at <= ?", v)).toList
          ++ ((m.UpdatedAt.lookup "$gt").map fun v => ("members.updated_at >= ?", v)).toList
          ++ ((m.UpdatedAt.lookup "$lt").map fun v => ("members.updated_at <= ?", v)).toList
      ∧ (∀ p ∈ m.textPairs, p.1 ∈ ["CAST(members.id as CHAR) LIKE ?",
          "CAST(members.mail as CHAR) LIKE ?", "CAST(members.nickname as CHAR) LIKE ?"])
      ∧ (∀ d ∈ [m.CreatedAt, m.UpdatedAt], ∀ k : String,
          ((d.lookup k).isSome = true ↔ ∃ v, (k, v) ∈ d)
            ∧ (∀ v, d.lookup k = some v → (k, v) ∈ d))
      ∧ (m.CreatedAt.lookup "$gt" = none → m.CreatedAt.lookup "$lt" = none →
          m.UpdatedAt.lookup "$gt" = none → m.UpdatedAt.lookup "$lt" = none →
          m.parseFilterRestricts
            = (whereText (m.textPairs.map Prod.fst), m.textPairs.map Prod.snd)) := by
  refine ⟨parseFilterRestricts_pairs m, rfl, ?_, ?_, ?_⟩
  · intro p hp
    simp only [FilterMemberArgs.textPairs] at hp
    by_cases h1 : m.ID ≠ 0 <;> by_cases h2 : m.Mail ≠ "" <;> by_cases h3 : m.Nickname ≠ "" <;>
      simp [h1, h2, h3] at hp <;> aesop
  · intro d _ k
    exact ⟨lookup_isSome_iff d k, fun v hv => lookup_mem d k v hv⟩
  · intro a b c e
    rw [parseFilterRestricts_pairs]
    simp [FilterMemberArgs.datePairs, a, b, c, e]

/-- C11, at a filter with both creation bounds (upper bound listed first in the
dictionary) and a lower update bound. -/
theorem C11_date_bounds_in_predicate_witness :
    datedFilter.parseFilterRestricts
      = ("WHERE members.created_at >= ? AND members.created_at <= ?"
            ++ " AND members.updated_at >= ?",
          [Value.time 3, Value.time 9, Value.time 5]) :=
  ((C11_date_bounds_in_predicate datedFilter).1).trans (by decide)

/-- C12: in the predicate and the values that `parseRestricts` returns, a non-empty `IDs`
list of length `n` contributes the one clause `members.id IN (?, ..., ?)` with exactly `n`
placeholders and its `n` elements, in list order, as bound values; likewise `UUIDs` with
`members.uuid IN (...)`. The id clause and values come after those of `custom_editor`,
`members.active` and `role` and before those of the uuids; an empty list contributes no
clause and no value. -/
theorem C12_id_lists_in_predicate (h : Helpers) (m : GetMembersArgs) :
    m.parseRestricts h
        = (strings.Join
            ((m.customEditorClause ++ m.activeClauses h ++ m.roleClause)
              ++ (if m.IDs = [] then []
                  else ["members.id IN ("
                    ++ strings.Join (List.replicate m.IDs.length "?") ", " ++ ")"])
              ++ (if m.UUIDs = [] then []
                  else ["members.uuid IN ("
                    ++ strings.Join (List.replicate m.UUIDs.length "?") ", " ++ ")"]))
            " AND ",
          ((if m.CustomEditor then [Value.bool true] else []) ++ m.activeValues
              ++ m.Role.toList.map Value.int)
            ++ m.IDs.map Value.str ++ m.UUIDs.map Value.str)
      ∧ placeholders ("members.id IN ("
          ++ strings.Join (List.replicate m.IDs.length "?") ", " ++ ")") = m.IDs.length
      ∧ placeholders ("members.uuid IN ("
          ++ strings.Join (List.replicate m.UUIDs.length "?") ", " ++ ")") = m.UUIDs.length
      ∧ (m.IDs.map Value.str).length = m.IDs.length
      ∧ (m.UUIDs.map Value.str).length = m.UUIDs.length := by
  have h1 : placeholders "members.id IN (" = 0 := by decide
  have h2 : placeholders "members.uuid IN (" = 0 := by decide
  have h3 : placeholders ")" = 0 := by decide
  refine ⟨?_, ?_, ?_, by simp, by simp⟩
  · rw [parseRestricts_eq]
    simp only [GetMembersArgs.idsClause, GetMembersArgs.uuidsClause]
    cases m.Role <;> cases m.IDs <;> cases m.UUIDs <;> simp
  · simp only [placeholders_append, placeholders_Join_marks, h1, h3]
    omega
  · simp only [placeholders_append, placeholders_Join_marks, h2, h3]
    omega

/-- C12, at a request for three ids and two uuids. -/
theorem C12_id_lists_in_predicate_witness :
    idsAndUuids.parseRestricts specHelpers
      = ("members.id IN (?, ?, ?) AND members.uuid IN (?, ?)",
          [Value.str "1", Value.str "2", Value.str "3", Value.str "3d64e480",
            Value.str "3d651126"]) :=
  ((C12_id_lists_in_predicate specHelpers idsAndUuids).1).trans (by decide)

/-- C13: when its statement was executed and reports `n` affected rows, `UpdateMember`
returns `User Not Found` for `n = 0`, `More Than One Rows Affected` for `n > 1` and no
error for `n = 1`; when its own statement was executed and reports `n` affected rows,
`DeleteMember` returns the same three results. -/
theorem C13_affected_rows_outcomes (d : Driver) (m : Member) (idType id : String) :
    (∀ ru : Result,
        d.NamedExec ("UPDATE members SET "
          ++ strings.Join
            (d.MakeFieldString "update" "%s = :%s" (d.GetStructDBTags "partial" m)) ", "
          ++ " WHERE id = :id") m = .ok ru →
        (ru.RowsAffected.1 = 0 →
            memberAPI.UpdateMember d m = .returned (some (Error.New "User Not Found")))
          ∧ (1 < ru.RowsAffected.1 →
            memberAPI.UpdateMember d m
              = .returned (some (Error.New "More Than One Rows Affected")))
          ∧ (ru.RowsAffected.1 = 1 → memberAPI.UpdateMember d m = .returned none))
      ∧ (∀ rd : Result,
        d.Exec ("UPDATE members SET active = " ++ toString (d.Members "delete") ++ " WHERE "
          ++ idType ++ " = ?") [Value.str id] = .ok rd →
        (rd.RowsAffected.1 = 0 →
            memberAPI.DeleteMember d idType id
              = .returned (some (Error.New "User Not Found")))
          ∧ (1 < rd.RowsAffected.1 →
            memberAPI.DeleteMember d idType id
              = .returned (some (Error.New "More Than One Rows Affected")))
          ∧ (rd.RowsAffected.1 = 1 → rd.RowsAffected.2 = none →
            memberAPI.DeleteMember d idType id = .returned none)) := by
  refine ⟨?_, ?_⟩
  · intro ru hU
    refine ⟨?_, ?_, ?_⟩
    · intro h0
      simp [memberAPI.UpdateMember, hU, h0]
    · intro h1
      simp [memberAPI.UpdateMember, hU, h1]
    · intro h1
      simp [memberAPI.UpdateMember, hU, h1]
  · intro rd hD
    refine ⟨?_, ?_, ?_⟩
    · intro h0
      simp [memberAPI.DeleteMember, hD, h0]
    · intro h1
      simp [memberAPI.DeleteMember, hD, h1]
    · intro h1 hDe
      simp [memberAPI.DeleteMember, hD, h1, hDe]

/-- C13, at a driver whose `NamedExec` reports no affected row while its `Exec` fails, and
at a driver whose `Exec` reports two affected rows while its `NamedExec` fails. -/
theorem C13_affected_rows_outcomes_witness :
    memberAPI.UpdateMember
        (writeDriver (affected 0) (.error (Error.New "driver: bad connection"))) superman
        = .returned (some (Error.New "User Not Found"))
      ∧ memberAPI.DeleteMember
        (writeDriver (.error (Error.New "driver: bad connection")) (affected 2)) "id" "3"
        = .returned (some (Error.New "More Than One Rows Affected")) :=
  ⟨((C13_affected_rows_outcomes
        (writeDriver (affected 0) (.error (Error.New "driver: bad connection"))) superman
        "id" "3").1 { RowsAffected := (0, none), LastInsertId := (0, none) } rfl).1 rfl,
    ((C13_affected_rows_outcomes
        (writeDriver (.error (Error.New "driver: bad connection")) (affected 2)) superman
        "id" "3").2 { RowsAffected := (2, none), LastInsertId := (0, none) } rfl).2.1
      (by decide)⟩

/-- C15: over a table whose stored numeric ids are not 0, if some stored row has the
numeric id of `m` or the member id of `m`, the duplicate check finds such a row and
`InsertMember` returns `(0, Duplicate entry)`; the check is the only statement it sends,
so no INSERT reaches the database and the stored rows stay as they are. -/
theorem C15_duplicate_entry_before_insert (rows : List Member) (exec : Except Error Result)
    (row : Except Error Member) (m : Member)
    (hids : ∀ r ∈ rows, r.ID ≠ 0)
    (hdup : ∃ r ∈ rows, r.ID = m.ID ∨ r.MemberID = m.MemberID) :
    memberAPI.InsertMember (tableDriver rows exec row) m
        = ⟨.returned (0, some (Error.New "Duplicate entry")),
            ["SELECT id FROM members WHERE id=? OR member_id=? LIMIT 1;"]⟩
      ∧ (∀ s ∈ (memberAPI.InsertMember (tableDriver rows exec row) m).issued,
          strings.Contains s "INSERT" = false) := by
  obtain ⟨r, hr, hmatch⟩ := hdup
  have hex : ∃ r', rows.find? (fun r => r.ID == m.ID || r.MemberID == m.MemberID) = some r' := by
    cases hf : rows.find? (fun r => r.ID == m.ID || r.MemberID == m.MemberID) with
    | some r' => exact ⟨r', rfl⟩
    | none =>
      have hn := List.find?_eq_none.1 hf r hr
      rcases hmatch with e | e <;> simp [e] at hn
  obtain ⟨r', hr'⟩ := hex
  have hmem : r' ∈ rows := List.mem_of_find?_eq_some hr'
  have hget : (tableDriver rows exec row).Get
      "SELECT id FROM members WHERE id=? OR member_id=? LIMIT 1;"
      [Value.int m.ID, Value.str m.MemberID] = .ok r'.ID := by
    simp [tableDriver, hr']
  have e := InsertMember_of_found (tableDriver rows exec row) m r'.ID hget (hids r' hmem)
  refine ⟨e, ?_⟩
  rw [e]
  intro s hs
  have : s = "SELECT id FROM members WHERE id=? OR member_id=? LIMIT 1;" := by simpa using hs
  subst this
  decide

/-- C15, at a table that holds the external identifier under the id 1. -/
theorem C15_duplicate_entry_before_insert_witness :
    memberAPI.InsertMember
        (tableDriver [{ superman with ID := 1 }] (affected 1) (.ok {})) superman
      = ⟨.returned (0, some (Error.New "Duplicate entry")),
          ["SELECT id FROM members WHERE id=? OR member_id=? LIMIT 1;"]⟩ :=
  (C15_duplicate_entry_before_insert [{ superman with ID := 1 }] (affected 1) (.ok {}) superman
    (by decide) (by decide)).1

end Member
